import Mathlib

/-!
Shallow embedding of the simulation engine in `src/app/src/lib/sim/worker.ts`
(the most complete of the repository's engine variants, per the specification).
Continuous quantities (metres, seconds, money) are modelled as rationals; the
haversine metric `turfDistance` is kept abstract as an explicit `dist`
parameter, since no verified property depends on the exact great-circle
formula.  JavaScript `Record` tables are modelled as association lists in
insertion order, `Set` as duplicate-free insertion-ordered lists, and the
stochastic draws (`Math.random`) as explicit oracle arguments.
-/

namespace SubSim

/-- TS `number | string` identifier. -/
abbrev SimId := Sum Nat String

/-- A lng/lat coordinate pair. -/
abbrev Coord := ℚ × ℚ

/-- A GeoJSON point feature: the engine only reads `id`, `name` and `demand`
from the property bag, plus the optional feature-level id. -/
structure PointFeature where
  coords : Coord
  propId : Option SimId
  featId : Option SimId
  name : Option String
  demand : ℚ
deriving Repr, DecidableEq

/-- A GeoJSON line feature with the `id` keys the engine reads. -/
structure LineFeature where
  coords : List Coord
  propId : Option SimId
  featId : Option SimId
deriving Repr, DecidableEq

structure SimStation where
  id : SimId
  coords : Coord
  name : String
  lines : List SimId
deriving Repr, DecidableEq

structure StationDist where
  id : SimId
  distance : ℚ
deriving Repr, DecidableEq

structure SimLine where
  id : SimId
  coords : List Coord
  length : ℚ
  stationDistances : List StationDist
  headway : ℚ
deriving Repr, DecidableEq

structure RouteLeg where
  lineId : SimId
  fromStationId : SimId
  toStationId : SimId
  rideTime : ℚ
  coords : List Coord
deriving Repr, DecidableEq

structure Route where
  legs : List RouteLeg
  totalTime : ℚ
  waitTime : ℚ
  rideTime : ℚ
deriving Repr, DecidableEq

structure Passenger where
  id : Nat
  originStationId : SimId
  destinationStationId : SimId
  route : Option Route
  currentLegIndex : Nat
  spawnTime : ℚ
deriving Repr, DecidableEq

inductive TrainState
  | moving
  | dwelling
deriving Repr, DecidableEq

structure Train where
  id : Nat
  lineId : SimId
  distanceAlongLine : ℚ
  speed : ℚ
  direction : Int
  state : TrainState
  dwellTimeRemaining : ℚ
  currentStationIndex : Int
  passengers : List Passenger
  capacity : Nat
deriving Repr, DecidableEq

inductive IncidentType
  | speed_cap
  | extra_dwell
deriving Repr, DecidableEq

/-- `itype` embeds the source field `type` (a reserved name in Lean). -/
structure Incident where
  id : Nat
  itype : IncidentType
  message : String
  targetId : SimId
  expiresAt : ℚ
  value : ℚ
deriving Repr, DecidableEq

structure TrainFeature where
  coords : Coord
  id : Nat
  loadFactor : ℚ
deriving Repr, DecidableEq

structure NearbyStation where
  id : SimId
  name : String
  distance : ℚ
  walkTime : ℚ
deriving Repr, DecidableEq

/-- Payload of the per-tick `TICK` snapshot message. -/
structure TickPayload where
  trains : List TrainFeature
  simTime : ℚ
  stationQueues : List (SimId × Nat)
  totalRidership : Nat
  budget : ℚ
  cashflowPerHour : ℚ
  avgWaitTime : ℚ
  dailyStationRidership : List (String × Nat)
  dailyLineRidership : List (String × Nat)
deriving Repr, DecidableEq

/-- Outbound worker messages (`ctx.postMessage`). -/
inductive Msg
  | workerReady
  | networkReady
  | tick (payload : TickPayload)
  | incidentEvent (incident : Incident) (active : Bool)
  | journeyPlanResult (route : Option Route) (walkToStationTime walkFromStationTime : ℚ)
  | demandGridData (grid : List PointFeature)
  | demandDetailsResult (coords : Coord) (nearbyStations : List NearbyStation)
      (hourlyDistribution : List ℚ)
deriving Repr, DecidableEq

/-- The worker's module-level mutable state. -/
structure EngineState where
  linesOrigin : List LineFeature
  stationsOrigin : List PointFeature
  simTime : ℚ
  running : Bool
  trains : List Train
  simLines : List SimLine
  simStations : List SimStation
  stationQueues : List (SimId × List Passenger)
  allPassengers : List (Nat × Passenger)
  nextTrainId : Nat
  nextPassengerId : Nat
  nextIncidentId : Nat
  totalRidership : Nat
  budget : ℚ
  cashflowPerHour : ℚ
  totalPassengerWaitTime : ℚ
  completedTrips : Nat
  dailyStationRidership : List (String × Nat)
  dailyLineRidership : List (String × Nat)
  lastDayRollover : ℚ
  totalTrainKm : ℚ
  lastIncidentKm : ℚ
  totalRevenue : ℚ
  totalOpex : ℚ
  activeIncidents : List Incident
  demandGrid : Option (List PointFeature)
  totalDemand : ℚ
deriving Repr, DecidableEq

-- Constants from the top of the worker.
def SIM_TICK_MS : ℚ := 100
def TIME_MULTIPLIER : ℚ := 120
def TICK_SECONDS : ℚ := (SIM_TICK_MS / 1000) * TIME_MULTIPLIER
def TRAIN_ACCELERATION : ℚ := 8 / 10
def MAX_TRAIN_SPEED : ℚ := 2222 / 100
def BASE_DWELL_TIME : ℚ := 20
def TRAIN_CAPACITY : Nat := 200
def TRAINS_PER_LINE : Nat := 4
def FARE_PER_KM : ℚ := 15 / 100
def OPEX_PER_TRAIN_KM : ℚ := 5
def OPEX_PER_STATION_HOUR : ℚ := 50
def INCIDENT_RATE_PER_10K_KM : ℚ := 5 / 10
def WALK_SPEED_MPS : ℚ := 14 / 10
def STATION_BUILD_COST : ℚ := 25000000

def HOURLY_MULTIPLIERS : List ℚ :=
  [1/10, 1/10, 1/10, 1/10, 2/10, 5/10, 8/10, 12/10, 15/10, 12/10, 8/10, 7/10,
   7/10, 6/10, 8/10, 10/10, 14/10, 16/10, 13/10, 9/10, 6/10, 4/10, 2/10, 1/10]

/-- `clamp(value, min, max) = Math.min(max, Math.max(min, value))`. -/
def clamp (value mn mx : ℚ) : ℚ := min mx (max mn value)

/-- JS `Math.round` (half away from zero is half-up for the non-negative
quantities rounded here). -/
def jsRound (q : ℚ) : Int := Int.floor (q + 1/2)

/-- JS `%` on the non-negative operands used by the clock. -/
def qmod (a b : ℚ) : ℚ := a - b * ((Int.floor (a / b) : Int) : ℚ)

def simIdStr : SimId → String
  | Sum.inl n => toString n
  | Sum.inr s => s

def coordKey (c : Coord) : String := toString c.1 ++ "," ++ toString c.2

def lookupLine (ls : List SimLine) (i : SimId) : Option SimLine :=
  ls.find? (fun l => decide (l.id = i))

def lookupStation (sts : List SimStation) (i : SimId) : Option SimStation :=
  sts.find? (fun st => decide (st.id = i))

/-- Insertion into a JS `Set` (no-op when already present, else append). -/
def addToSet (l : List SimId) (i : SimId) : List SimId :=
  if l.any (fun x => decide (x = i)) then l else l ++ [i]

/-- `record[key] = value` on a JS object: overwrite in place or append. -/
def upsertLine (ls : List SimLine) (i : SimId) (v : SimLine) : List SimLine :=
  if ls.any (fun l => decide (l.id = i)) then
    ls.map (fun l => if l.id = i then v else l)
  else ls ++ [v]

def upsertStation (sts : List SimStation) (i : SimId) (v : SimStation) : List SimStation :=
  if sts.any (fun st => decide (st.id = i)) then
    sts.map (fun st => if st.id = i then v else st)
  else sts ++ [v]

def qUpsert (qs : List (SimId × List Passenger)) (i : SimId) (v : List Passenger) :
    List (SimId × List Passenger) :=
  if qs.any (fun e => decide (e.1 = i)) then
    qs.map (fun e => if e.1 = i then (e.1, v) else e)
  else qs ++ [(i, v)]

def qLookup (qs : List (SimId × List Passenger)) (i : SimId) : Option (List Passenger) :=
  (qs.find? (fun e => decide (e.1 = i))).map Prod.snd

/-- In-place mutation of an existing queue (`stationQueues[id].push(...)` /
reassignment); every queue touched by the source exists by construction. -/
def qModify (qs : List (SimId × List Passenger)) (i : SimId)
    (f : List Passenger → List Passenger) : List (SimId × List Passenger) :=
  qs.map (fun e => if e.1 = i then (e.1, f e.2) else e)

/-- `(obj[k] || 0) + 1` tally on the daily-ridership objects. -/
def bump (m : List (String × Nat)) (k : String) : List (String × Nat) :=
  if m.any (fun e => decide (e.1 = k)) then
    m.map (fun e => if e.1 = k then (e.1, e.2 + 1) else e)
  else m ++ [(k, 1)]

/-- Stable ascending insertion by a rational key (JS `sort((a,b)=>k(a)-k(b))`,
which is stable in modern engines). -/
def insertByKey {α : Type} (key : α → ℚ) (x : α) : List α → List α
  | [] => [x]
  | y :: ys => if key x ≤ key y then x :: y :: ys else y :: insertByKey key x ys

def sortByKey {α : Type} (key : α → ℚ) : List α → List α
  | [] => []
  | x :: xs => insertByKey key x (sortByKey key xs)

/-- Consecutive coordinate pairs of a polyline. -/
def segPairs (coords : List Coord) : List (Coord × Coord) := coords.zip coords.tail

/-- Sum of segment lengths of a whole polyline. -/
def segSum (dist : Coord → Coord → ℚ) (coords : List Coord) : ℚ :=
  (segPairs coords).foldl (fun acc pr => acc + dist pr.1 pr.2) 0

/-- Cumulative distance from the start of the polyline to vertex `index`
(`coords.slice(0, index).reduce((acc, point, idx) => acc + dist(point, coords[idx+1]), 0)`). -/
def cumDist (dist : Coord → Coord → ℚ) (coords : List Coord) (index : Nat) : ℚ :=
  ((segPairs coords).take index).foldl (fun acc pr => acc + dist pr.1 pr.2) 0

def initialState : EngineState where
  linesOrigin := []
  stationsOrigin := []
  simTime := 0
  running := false
  trains := []
  simLines := []
  simStations := []
  stationQueues := []
  allPassengers := []
  nextTrainId := 1
  nextPassengerId := 1
  nextIncidentId := 1
  totalRidership := 0
  budget := 5000000000
  cashflowPerHour := 0
  totalPassengerWaitTime := 0
  completedTrips := 0
  dailyStationRidership := []
  dailyLineRidership := []
  lastDayRollover := 0
  totalTrainKm := 0
  lastIncidentKm := 0
  totalRevenue := 0
  totalOpex := 0
  activeIncidents := []
  demandGrid := none
  totalDemand := 0

/-- `findNearestStation`: linear scan keeping the strictly closest station
(ties keep the earlier station, as in the source's `<` comparison against the
running minimum that starts at `Infinity`). -/
def findNearestStation (dist : Coord → Coord → ℚ) (stations : List SimStation)
    (coords : Coord) : Option SimStation :=
  (stations.foldl (fun acc station =>
    let d := dist coords station.coords
    match acc with
    | none => some (station, d)
    | some (_, m) => if d < m then some (station, d) else acc) none).map Prod.fst

/-- `getNextStation`: nearest station strictly ahead in the current direction.
`none` models the source's `Infinity` distance / `null` station. -/
def getNextStation (train : Train) (line : SimLine) : Option (StationDist × ℚ) :=
  if train.direction = 1 then
    line.stationDistances.foldl (fun acc station =>
      if train.distanceAlongLine < station.distance then
        let d := station.distance - train.distanceAlongLine
        match acc with
        | none => some (station, d)
        | some (_, m) => if d < m then some (station, d) else acc
      else acc) none
  else
    line.stationDistances.reverse.foldl (fun acc station =>
      if station.distance < train.distanceAlongLine then
        let d := train.distanceAlongLine - station.distance
        match acc with
        | none => some (station, d)
        | some (_, m) => if d < m then some (station, d) else acc
      else acc) none

def isTrainHeadingToStation (simLines : List SimLine) (train : Train)
    (targetStationId : SimId) : Bool :=
  match lookupLine simLines train.lineId with
  | none => false
  | some line =>
    match line.stationDistances.find? (fun s => decide (s.id = targetStationId)) with
    | none => false
    | some target =>
      if train.direction = 1 then decide (train.distanceAlongLine < target.distance)
      else decide (target.distance < train.distanceAlongLine)

/-- `extractLineSegment`: polyline slice between the indices of the two
stations in the line's (sorted) station list. -/
def extractLineSegment (line : SimLine) (fromId toId : SimId) : List Coord :=
  match line.stationDistances.findIdx? (fun sd => decide (sd.id = fromId)),
        line.stationDistances.findIdx? (fun sd => decide (sd.id = toId)) with
  | some fromIdx, some toIdx =>
    let start := min fromIdx toIdx
    let stop := max fromIdx toIdx
    (line.coords.drop start).take (stop + 1 - start)
  | _, _ => line.coords

/-- A BFS queue entry of `findRoute`. -/
structure BfsEntry where
  stationId : SimId
  path : List RouteLeg
  wait : Nat
deriving Repr, DecidableEq

/-- Index walk of the `while (i >= 0 && i < length) { ...; i += dir }` loop
starting at `start + dir`. -/
def walkIdx (n start : Nat) (dir : Int) : List Nat :=
  if dir = 1 then (List.range n).filter (fun i => decide (start < i))
  else ((List.range n).filter (fun i => decide (i < start))).reverse

/-- Expansion of one line at the current BFS station: pushes a leg to every
not-yet-visited station on the line, in both directions, marking each visited
as it is pushed. -/
def expandLine (simLines : List SimLine) (station : SimStation) (cur : BfsEntry)
    (acc : List BfsEntry × List SimId) (lineId : SimId) : List BfsEntry × List SimId :=
  match lookupLine simLines lineId with
  | none => acc
  | some line =>
    match line.stationDistances.findIdx? (fun sd => decide (sd.id = station.id)) with
    | none => acc
    | some stationIndex =>
      match line.stationDistances.get? stationIndex with
      | none => acc
      | some here =>
        [(-1 : Int), 1].foldl (fun acc2 dir =>
          (walkIdx line.stationDistances.length stationIndex dir).foldl (fun acc3 i =>
            match line.stationDistances.get? i with
            | none => acc3
            | some neighbor =>
              if acc3.2.any (fun v => decide (v = neighbor.id)) then acc3
              else
                let rideDist := |neighbor.distance - here.distance|
                let leg : RouteLeg :=
                  { lineId := lineId,
                    fromStationId := station.id,
                    toStationId := neighbor.id,
                    rideTime := (rideDist / 500) * 60,
                    coords := extractLineSegment line station.id neighbor.id }
                (acc3.1 ++ [{ stationId := neighbor.id, path := cur.path ++ [leg],
                              wait := cur.wait + 1 }],
                 acc3.2 ++ [neighbor.id])) acc2) acc

/-- The BFS `while (queue.length > 0)` loop of `findRoute`, with explicit
fuel.  Each iteration pops one entry and every push is paired with a fresh
addition to `visited`, so any fuel at least `1 + initial queue length + number
of station ids occurring on lines` makes the recursion behave exactly like the
source loop. -/
def findRouteAux (simLines : List SimLine) (simStations : List SimStation)
    (destStationId : SimId) :
    Nat → List BfsEntry → List SimId → Option Route
  | 0, _, _ => none
  | _ + 1, [], _ => none
  | fuel + 1, cur :: rest, visited =>
    if cur.stationId = destStationId then
      let totalRide := cur.path.foldl (fun sum leg => sum + leg.rideTime) (0 : ℚ)
      let waitTime := (cur.path.length : ℚ) * 90
      some { legs := cur.path, totalTime := totalRide + waitTime,
             waitTime := waitTime, rideTime := totalRide }
    else
      match lookupStation simStations cur.stationId with
      | none => findRouteAux simLines simStations destStationId fuel rest visited
      | some station =>
        let ex := station.lines.foldl (expandLine simLines station cur) ([], visited)
        findRouteAux simLines simStations destStationId fuel (rest ++ ex.1) ex.2

def routeFuel (simLines : List SimLine) (simStations : List SimStation) : Nat :=
  1 + simStations.length + (simLines.map (fun l => l.stationDistances.length)).sum + 1

def findRoute (simLines : List SimLine) (simStations : List SimStation)
    (originStationId destStationId : SimId) : Option Route :=
  findRouteAux simLines simStations destStationId
    (routeFuel simLines simStations)
    [{ stationId := originStationId, path := [], wait := 0 }] [originStationId]

/-- One alighting passenger's bookkeeping (the body of the
`alighting.forEach` loop): advance the leg index; on the final leg complete
the trip (wait-time, counters, daily tallies, fare revenue), otherwise
re-enqueue at this station for transfer. -/
def alightStep (station : SimStation) (acc : EngineState) (p0 : Passenger) : EngineState :=
  let p : Passenger := { p0 with currentLegIndex := p0.currentLegIndex + 1 }
  let finished : Bool := match p.route with
    | none => true
    | some r => decide (r.legs.length ≤ p.currentLegIndex)
  if finished then
    let acc := { acc with
      totalPassengerWaitTime := acc.totalPassengerWaitTime + (acc.simTime - p.spawnTime),
      completedTrips := acc.completedTrips + 1,
      totalRidership := acc.totalRidership + 1,
      allPassengers := acc.allPassengers.filter (fun e => decide (e.1 ≠ p.id)) }
    let acc := { acc with
      dailyStationRidership :=
        bump (bump acc.dailyStationRidership (simIdStr p.originStationId))
          (simIdStr p.destinationStationId) }
    let acc := { acc with
      dailyLineRidership := match p.route with
        | none => acc.dailyLineRidership
        | some r =>
            r.legs.foldl (fun m (leg : RouteLeg) => bump m (simIdStr leg.lineId))
              acc.dailyLineRidership }
    let routeDist : ℚ := match p.route with
      | none => 0
      | some r => r.legs.foldl (fun sum leg =>
          match lookupLine acc.simLines leg.lineId with
          | none => sum
          | some legLine =>
            let fromD := ((legLine.stationDistances.find?
              (fun st => decide (st.id = leg.fromStationId))).map StationDist.distance).getD 0
            let toD := ((legLine.stationDistances.find?
              (fun st => decide (st.id = leg.toStationId))).map StationDist.distance).getD 0
            sum + |toD - fromD|) 0
    { acc with totalRevenue := acc.totalRevenue + (routeDist / 1000) * FARE_PER_KM }
  else
    { acc with stationQueues := qModify acc.stationQueues station.id (fun q => q ++ [p]) }

/-- One queued passenger's boarding attempt (the body of the queue `filter`):
at capacity the passenger stays queued untouched; a route-less passenger first
gets a lazily computed route (leg index reset to 0); boarding happens only if
the current leg is on this train's line and the train is heading towards the
leg's destination. -/
def boardStep (simLines : List SimLine) (simStations : List SimStation)
    (acc : Train × List Passenger × Nat) (p0 : Passenger) : Train × List Passenger × Nat :=
  let tr := acc.1
  let kept := acc.2.1
  let boarded := acc.2.2
  if tr.capacity ≤ tr.passengers.length then (tr, kept ++ [p0], boarded)
  else
    let p := if p0.route.isNone then
        { p0 with
          route := findRoute simLines simStations p0.originStationId p0.destinationStationId,
          currentLegIndex := 0 }
      else p0
    let legOpt : Option RouteLeg := match p.route with
      | none => none
      | some r => r.legs.get? p.currentLegIndex
    match legOpt with
    | none => (tr, kept ++ [p], boarded)
    | some leg =>
      if leg.lineId = tr.lineId ∧ isTrainHeadingToStation simLines tr leg.toStationId then
        ({ tr with passengers := tr.passengers ++ [p] }, kept, boarded + 1)
      else (tr, kept ++ [p], boarded)

/-- `handleStationArrival`: snap to the station, alight, board, and set the
dwell timer.  Returns the mutated train together with the mutated global
state. -/
def handleStationArrival (s : EngineState) (train0 : Train) (line : SimLine)
    (stationDist : StationDist) : Train × EngineState :=
  let train := { train0 with
    speed := 0,
    state := TrainState.dwelling,
    distanceAlongLine := stationDist.distance }
  match lookupStation s.simStations stationDist.id with
  | none => (train, s)
  | some station =>
    let stationIdx : Int :=
      match line.stationDistances.findIdx? (fun sd => decide (sd.id = station.id)) with
      | some i => (i : Int)
      | none => -1
    let train := { train with currentStationIndex := stationIdx }
    let alighting := train.passengers.filter (fun p =>
      match p.route with
      | none => false
      | some r =>
        match r.legs.get? p.currentLegIndex with
        | some leg => decide (leg.toStationId = station.id)
        | none => false)
    let train := { train with passengers := train.passengers.filter (fun p =>
      match p.route with
      | none => false
      | some r =>
        match r.legs.get? p.currentLegIndex with
        | some leg => decide (leg.toStationId ≠ station.id)
        | none => true) }
    let s := alighting.foldl (alightStep station) s
    let boardRes : Train × List Passenger × Nat :=
      match qLookup s.stationQueues station.id with
      | none => (train, [], 0)
      | some queue => queue.foldl (boardStep s.simLines s.simStations) (train, [], 0)
    let train := boardRes.1
    let s := match qLookup s.stationQueues station.id with
      | none => s
      | some _ =>
          { s with stationQueues := qModify s.stationQueues station.id (fun _ => boardRes.2.1) }
    let dwellTime := BASE_DWELL_TIME +
      ((alighting.length + boardRes.2.2 : Nat) : ℚ) * (25 / 100)
    let dwellTime := s.activeIncidents.foldl (fun d inc =>
      if inc.itype = IncidentType.extra_dwell ∧ inc.targetId = station.id then d + inc.value
      else d) dwellTime
    ({ train with dwellTimeRemaining := dwellTime }, s)

/-- The effective target speed: `MAX_TRAIN_SPEED` lowered by every active
`speed_cap` incident targeting this train (the incident `forEach` inside
`updateTrains`). -/
def effectiveTargetSpeed (incidents : List Incident) (trainId : Nat) : ℚ :=
  incidents.foldl (fun ts inc =>
    if inc.itype = IncidentType.speed_cap ∧ inc.targetId = Sum.inl trainId then
      min ts inc.value
    else ts) MAX_TRAIN_SPEED

/-- The per-train body of `updateTrains`' `forEach`: returns the updated
train, the updated global state, and the distance this train moved this tick
(its contribution to `distanceTraveledThisTick`). -/
def tickTrain (s : EngineState) (train : Train) : Train × EngineState × ℚ :=
  match lookupLine s.simLines train.lineId with
  | none => (train, s, 0)
  | some line =>
    if line.stationDistances.length < 2 then (train, s, 0)
    else match train.state with
    | TrainState.dwelling =>
      let t := { train with dwellTimeRemaining := train.dwellTimeRemaining - TICK_SECONDS }
      if t.dwellTimeRemaining ≤ 0 then
        ({ t with state := TrainState.moving, currentStationIndex := -1 }, s, 0)
      else (t, s, 0)
    | TrainState.moving =>
      let next := getNextStation train line
      let brakingDistance := (train.speed * train.speed) / (2 * TRAIN_ACCELERATION)
      let targetSpeed := effectiveTargetSpeed s.activeIncidents train.id
      let braking : Bool := match next with
        | some (_, d) => decide (d < brakingDistance)
        | none => false
      let speed := if braking then
          clamp (train.speed - TRAIN_ACCELERATION * TICK_SECONDS) 0 targetSpeed
        else
          clamp (train.speed + TRAIN_ACCELERATION * TICK_SECONDS) 0 targetSpeed
      let distanceMoved := speed * TICK_SECONDS
      let t1 := { train with
        speed := speed,
        distanceAlongLine := train.distanceAlongLine + distanceMoved * (train.direction : ℚ) }
      let arr : Train × EngineState := match next with
        | some (ns, d) =>
          if d ≤ distanceMoved then handleStationArrival s t1 line ns else (t1, s)
        | none => (t1, s)
      let t2 := arr.1
      let t3 := if line.length ≤ t2.distanceAlongLine then
          { t2 with distanceAlongLine := line.length, direction := -1 }
        else if t2.distanceAlongLine ≤ 0 then
          { t2 with distanceAlongLine := 0, direction := 1 }
        else t2
      (t3, arr.2, distanceMoved)

/-- `updateTrains`: advance every train in order, accumulating the total
distance travelled this tick into `totalTrainKm` (in kilometres). -/
def updateTrains (s : EngineState) : EngineState :=
  let res := s.trains.foldl (fun acc t =>
      let r := tickTrain acc.1 t
      (r.2.1, acc.2.1 ++ [r.1], acc.2.2 + r.2.2)) (s, ([] : List Train), (0 : ℚ))
  { res.1 with trains := res.2.1, totalTrainKm := res.1.totalTrainKm + res.2.2 / 1000 }

/-- `updateEconomics` of the app worker: note that `totalTrainKm` is the
cumulative (never reset) train-kilometre counter. -/
def updateEconomics (s : EngineState) : EngineState :=
  let trainKmCost := s.totalTrainKm * OPEX_PER_TRAIN_KM
  let stationHoursCost := (s.simStations.length : ℚ) *
    (OPEX_PER_STATION_HOUR * (TICK_SECONDS / 3600))
  let totalOpex := s.totalOpex + trainKmCost + stationHoursCost
  let revenuePerHour := s.totalRevenue / max (s.simTime / 3600) 1
  let opexPerHour := totalOpex / max (s.simTime / 3600) 1
  let cash := revenuePerHour - opexPerHour
  { s with
    totalOpex := totalOpex,
    cashflowPerHour := cash,
    budget := s.budget + (cash / 3600) * TICK_SECONDS }

/-- `checkForIncidents`, with the two `Math.random()` draws passed in as the
coin (`< 0.5`) and the target index. -/
def checkForIncidents (s : EngineState) (coin : Bool) (idx : Nat) :
    EngineState × List Msg :=
  if s.totalTrainKm - s.lastIncidentKm < 10000 / max INCIDENT_RATE_PER_10K_KM (1/100) then
    (s, [])
  else
    let s := { s with lastIncidentKm := s.totalTrainKm }
    let incidentId := s.nextIncidentId
    let s := { s with nextIncidentId := incidentId + 1 }
    if coin then
      match s.trains.get? idx with
      | none => (s, [])
      | some randomTrain =>
        let incident : Incident :=
          { id := incidentId, itype := IncidentType.speed_cap,
            message := "Speed restriction on Train " ++ toString randomTrain.id,
            targetId := Sum.inl randomTrain.id,
            expiresAt := s.simTime + 1800,
            value := MAX_TRAIN_SPEED * (6 / 10) }
        ({ s with activeIncidents := s.activeIncidents ++ [incident] },
         [Msg.incidentEvent incident true])
    else
      match s.simStations.get? idx with
      | none => (s, [])
      | some randomStation =>
        let incident : Incident :=
          { id := incidentId, itype := IncidentType.extra_dwell,
            message := "Delays at " ++ randomStation.name,
            targetId := randomStation.id,
            expiresAt := s.simTime + 1200,
            value := 15 }
        ({ s with activeIncidents := s.activeIncidents ++ [incident] },
         [Msg.incidentEvent incident true])

/-- `cleanupIncidents`: emit an inactive-transition event for, and delete,
every incident with `expiresAt ≤ simTime`. -/
def cleanupIncidents (s : EngineState) : EngineState × List Msg :=
  ({ s with activeIncidents :=
      s.activeIncidents.filter (fun inc => decide (s.simTime < inc.expiresAt)) },
   (s.activeIncidents.filter (fun inc => decide (inc.expiresAt ≤ s.simTime))).map
      (fun inc => Msg.incidentEvent inc false))

/-- Segment walk of `getPointAlongLine` (interpolation within the segment
that first reaches the requested distance; past the end, the last vertex). -/
def walkAlong (dist : Coord → Coord → ℚ) : List Coord → ℚ → ℚ → Option Coord
  | [], _, _ => none
  | [c], _, _ => some c
  | a :: b :: rest, distance, distanceTraveled =>
    let segmentLength := dist a b
    if distance ≤ distanceTraveled + segmentLength then
      let remaining := distance - distanceTraveled
      let frac := remaining / segmentLength
      some (a.1 + (b.1 - a.1) * frac, a.2 + (b.2 - a.2) * frac)
    else walkAlong dist (b :: rest) distance (distanceTraveled + segmentLength)

def getPointAlongLine (dist : Coord → Coord → ℚ) (line : SimLine) (distance : ℚ) :
    Option Coord :=
  if distance ≤ 0 then line.coords.head? else walkAlong dist line.coords distance 0

/-- `buildTrainFeatures`: train markers for the snapshot (`coords ?? [0, 0]`
when the interpolation yields nothing). -/
def buildTrainFeatures (dist : Coord → Coord → ℚ) (s : EngineState) : List TrainFeature :=
  s.trains.map (fun train =>
    let coordsOpt : Option Coord := match lookupLine s.simLines train.lineId with
      | some line => getPointAlongLine dist line (clamp train.distanceAlongLine 0 line.length)
      | none => some (0, 0)
    { coords := coordsOpt.getD (0, 0),
      id := train.id,
      loadFactor := if 0 < train.capacity then
          (train.passengers.length : ℚ) / (train.capacity : ℚ)
        else 0 })

/-- One iteration of the `spawnPassengers` loop, on one drawn pair of grid
indices: skip unless both grid points exist, are distinct, and snap to two
distinct stations; otherwise enqueue a fresh route-less passenger at the
origin station. -/
def spawnStep (dist : Coord → Coord → ℚ) (grid : List PointFeature)
    (acc : EngineState) (draw : Nat × Nat) : EngineState :=
  match grid.get? draw.1, grid.get? draw.2 with
  | some originPoint, some destPoint =>
    if draw.1 = draw.2 then acc
    else
      match findNearestStation dist acc.simStations originPoint.coords,
            findNearestStation dist acc.simStations destPoint.coords with
      | some originStation, some destStation =>
        if originStation.id = destStation.id then acc
        else
          let passenger : Passenger :=
            { id := acc.nextPassengerId,
              originStationId := originStation.id,
              destinationStationId := destStation.id,
              route := none,
              currentLegIndex := 0,
              spawnTime := acc.simTime }
          { acc with
            nextPassengerId := acc.nextPassengerId + 1,
            allPassengers := acc.allPassengers ++ [(passenger.id, passenger)],
            stationQueues :=
              qModify acc.stationQueues originStation.id (fun q => q ++ [passenger]) }
      | _, _ => acc
  | _, _ => acc

/-- `spawnPassengers`, with the per-iteration pair of `Math.random()` grid
indices passed in as `draws` (the loop index `i` is consumed only through
the two draws, so the loop is folded over the drawn pairs). -/
def spawnPassengers (dist : Coord → Coord → ℚ) (s : EngineState) (hour : Nat)
    (draws : Nat → Nat × Nat) : EngineState :=
  match s.demandGrid with
  | none => s
  | some grid =>
    if s.simStations.length = 0 then s
    else
      let hourlyMultiplier := HOURLY_MULTIPLIERS.getD hour 0
      let n := (jsRound ((s.totalDemand / 86400) * TICK_SECONDS * hourlyMultiplier * 40)).toNat
      ((List.range n).map draws).foldl (spawnStep dist grid) s

/-- The `TICK` snapshot payload assembled at the end of `simulationTick` from
the post-substep state. -/
def snapshotPayload (dist : Coord → Coord → ℚ) (s : EngineState) : TickPayload :=
  { trains := buildTrainFeatures dist s,
    simTime := s.simTime,
    stationQueues := s.stationQueues.map (fun e => (e.1, e.2.length)),
    totalRidership := s.totalRidership,
    budget := s.budget,
    cashflowPerHour := s.cashflowPerHour,
    avgWaitTime := if 0 < s.completedTrips then
        s.totalPassengerWaitTime / (s.completedTrips : ℚ)
      else 0,
    dailyStationRidership := s.dailyStationRidership,
    dailyLineRidership := s.dailyLineRidership }

/-- The random draws one tick consumes. -/
structure TickOracle where
  spawnDraws : Nat → Nat × Nat
  incCoin : Bool
  incIdx : Nat

/-- `simulationTick`: clock, day rollover, spawn, trains, economics,
incident creation, incident expiry, snapshot — in source order. -/
def simulationTick (dist : Coord → Coord → ℚ) (s : EngineState) (o : TickOracle) :
    EngineState × List Msg :=
  let s := { s with simTime := s.simTime + TICK_SECONDS }
  let currentHour := (Int.floor (qmod s.simTime 86400 / 3600)).toNat
  let s := if Int.floor (s.lastDayRollover / 86400) < Int.floor (s.simTime / 86400) then
      { s with dailyStationRidership := [], dailyLineRidership := [],
               lastDayRollover := s.simTime }
    else s
  let s := spawnPassengers dist s currentHour o.spawnDraws
  let s := updateTrains s
  let s := updateEconomics s
  let chk := checkForIncidents s o.incCoin o.incIdx
  let cln := cleanupIncidents chk.1
  (cln.1, chk.2 ++ cln.2 ++ [Msg.tick (snapshotPayload dist cln.1)])

/-- `resetSimulation` (budget, incidents and `totalTrainKm` are deliberately
not reset by the source). -/
def resetSimulation (s : EngineState) : EngineState :=
  { s with
    simLines := [],
    simStations := [],
    stationQueues := [],
    trains := [],
    nextTrainId := 1,
    nextPassengerId := 1,
    totalRidership := 0,
    totalPassengerWaitTime := 0,
    completedTrips := 0,
    totalRevenue := 0,
    totalOpex := 0,
    cashflowPerHour := 0 }

/-- `addStationToSimulation`: id from `properties.id ?? feature.id ?? joined
coordinates`, fresh empty line set and queue. -/
def addStationToSimulation (s : EngineState) (feature : PointFeature) : EngineState :=
  let id := feature.propId.getD (feature.featId.getD (Sum.inr (coordKey feature.coords)))
  let simStation : SimStation :=
    { id := id,
      coords := feature.coords,
      name := feature.name.getD ("Station " ++ simIdStr id),
      lines := [] }
  { s with
    simStations := upsertStation s.simStations id simStation,
    stationQueues := qUpsert s.stationQueues id [] }

/-- The per-vertex snap scan of `prepareLines`: first station within 50 m of
the vertex, recorded with the cumulative distance at that vertex; the matched
station's line set gains this line id even when the line is later dropped. -/
def snapScan (dist : Coord → Coord → ℚ) (coords : List Coord) (id : SimId)
    (sts : List SimStation) : List StationDist × List SimStation :=
  (List.range coords.length).foldl (fun acc index =>
    match coords.get? index with
    | none => acc
    | some coord =>
      match acc.2.find? (fun st => decide (dist st.coords coord < 50)) with
      | none => acc
      | some station =>
        let snapshotDistance := cumDist dist coords index
        (acc.1 ++ [{ id := station.id, distance := snapshotDistance }],
         acc.2.map (fun st =>
           if st.id = station.id then { st with lines := addToSet st.lines id } else st)))
    ([], sts)

/-- The body of `prepareLines`' `forEach` once the line id is resolved:
compute the total length, snap stations at every vertex (mutating the
matched stations' line sets), and insert the line into the table only when
at least two stations matched. -/
def prepareLineWith (dist : Coord → Coord → ℚ) (id : SimId) (acc : EngineState)
    (coords : List Coord) : EngineState :=
  let totalLength := segSum dist coords
  let scan := snapScan dist coords id acc.simStations
  let acc := { acc with simStations := scan.2 }
  if scan.1.length < 2 then acc
  else
    let stationDistances := sortByKey StationDist.distance scan.1
    let simLine : SimLine :=
      { id := id,
        coords := coords,
        length := totalLength,
        stationDistances := stationDistances,
        headway := max 120 (((stationDistances.length : ℚ) - 1) * 90) }
    { acc with simLines := upsertLine acc.simLines id simLine }

/-- The per-feature body of `prepareLines`' `forEach`: skip degenerate
polylines and resolve the id `properties.id ?? feature.id ?? line-N`
(consuming `nextTrainId` for the generated fallback).  The source also
builds a `uniqueStationIds` set that is never read; it is omitted here. -/
def prepareLine (dist : Coord → Coord → ℚ) (acc : EngineState)
    (lineFeature : LineFeature) : EngineState :=
  if lineFeature.coords.length < 2 then acc
  else
    match lineFeature.propId.orElse (fun _ => lineFeature.featId) with
    | some i => prepareLineWith dist i acc lineFeature.coords
    | none =>
      prepareLineWith dist (Sum.inr ("line-" ++ toString acc.nextTrainId))
        { acc with nextTrainId := acc.nextTrainId + 1 } lineFeature.coords

def prepareLines (dist : Coord → Coord → ℚ) (s : EngineState) : EngineState :=
  s.linesOrigin.foldl (prepareLine dist) s

/-- `spawnTrainsForLine`: four evenly spaced trains, only on lines with at
least two matched stations. -/
def spawnTrainsForLine (acc : EngineState) (line : SimLine) : EngineState :=
  if line.stationDistances.length < 2 then acc
  else
    let spacing := line.length / (TRAINS_PER_LINE : ℚ)
    (List.range TRAINS_PER_LINE).foldl (fun a i =>
      { a with
        trains := a.trains ++ [{
          id := a.nextTrainId,
          lineId := line.id,
          distanceAlongLine := spacing * (i : ℚ),
          speed := 0,
          direction := 1,
          state := TrainState.moving,
          dwellTimeRemaining := 0,
          currentStationIndex := -1,
          passengers := [],
          capacity := TRAIN_CAPACITY }],
        nextTrainId := a.nextTrainId + 1 }) acc

/-- `updateNetwork`: remember the inputs, reset, rebuild stations then lines,
respawn trains, announce readiness. -/
def updateNetwork (dist : Coord → Coord → ℚ) (lines : List LineFeature)
    (stations : List PointFeature) (s : EngineState) : EngineState × List Msg :=
  let s := { s with linesOrigin := lines, stationsOrigin := stations }
  let s := resetSimulation s
  let s := s.stationsOrigin.foldl addStationToSimulation s
  let s := prepareLines dist s
  let s := s.simLines.foldl spawnTrainsForLine s
  (s, [Msg.networkReady])

/-- `createDemandGrid`, with the rounded per-cell demand draws passed in as
an oracle. -/
def createDemandGrid (demandDraw : Nat → Nat → Nat) (s : EngineState) : EngineState :=
  let bbox0 : ℚ := 1004 / 10
  let bbox1 : ℚ := 137 / 10
  let width : ℚ := ((1006 / 10 : ℚ) - 1004 / 10) / 20
  let height : ℚ := ((138 / 10 : ℚ) - 137 / 10) / 20
  let grid := (List.range 20).foldl (fun acc (i : Nat) =>
    (List.range 20).foldl (fun acc2 (j : Nat) =>
      let lng := bbox0 + (i : ℚ) * width
      let lat := bbox1 + (j : ℚ) * height
      let demand := demandDraw i j
      if 8 < demand then
        (acc2.1 ++ [{ coords := (lng, lat), propId := none, featId := none,
                      name := none, demand := (demand : ℚ) : PointFeature }],
         acc2.2 + (demand : ℚ))
      else acc2) acc) (([] : List PointFeature), (0 : ℚ))
  { s with demandGrid := some grid.1, totalDemand := grid.2 }

def setDemandGrid (grid : List PointFeature) (s : EngineState) : EngineState :=
  { s with
    demandGrid := some grid,
    totalDemand := grid.foldl (fun sum feature => sum + feature.demand) 0 }

/-- `handlePlanJourney`: nearest-station snap, walk times, route or the null
route result.  The source mutates no engine state here; only the emitted
message list is returned. -/
def handlePlanJourney (dist : Coord → Coord → ℚ) (s : EngineState)
    (originCoords destCoords : Coord) : List Msg :=
  match findNearestStation dist s.simStations originCoords,
        findNearestStation dist s.simStations destCoords with
  | some originStation, some destStation =>
    let walkTo := dist originCoords originStation.coords / WALK_SPEED_MPS
    let walkFrom := dist destCoords destStation.coords / WALK_SPEED_MPS
    (match findRoute s.simLines s.simStations originStation.id destStation.id with
     | none => [Msg.journeyPlanResult none walkTo walkFrom]
     | some route =>
       [Msg.journeyPlanResult (some { route with totalTime := route.totalTime + walkTo + walkFrom })
          walkTo walkFrom])
  | _, _ => []

/-- `handleDemandDetails`, with the 12 random profile values passed in. -/
def handleDemandDetails (dist : Coord → Coord → ℚ) (s : EngineState) (coords : Coord)
    (profileDraw : List ℚ) : List Msg :=
  let nearbyStations :=
    ((sortByKey Prod.snd
        ((s.simStations.map (fun station => (station, dist coords station.coords))).filter
          (fun e => decide (e.2 < 2000)))).take 5).map
      (fun e =>
        { id := e.1.id, name := e.1.name, distance := e.2,
          walkTime := e.2 / WALK_SPEED_MPS : NearbyStation })
  [Msg.demandDetailsResult coords nearbyStations profileDraw]

/-- `handleInfrastructureBuild`: subtract the cost, then clamp a negative
result to the −5·10⁹ floor. -/
def handleInfrastructureBuild (cost : ℚ) (s : EngineState) : EngineState :=
  let budget := s.budget - cost
  let budget := if budget < 0 then max budget (-5000000000) else budget
  { s with budget := budget }

/-- Inbound commands (`WorkerInboundMessage`), with the random draws a
handler may consume carried in the message. -/
inductive InMsg
  | start
  | pause
  | updateNet (lines : List LineFeature) (stations : List PointFeature)
  | buildInfrastructure (cost : ℚ)
  | planJourney (origin destination : Coord)
  | getDemandGrid (demandDraw : Nat → Nat → Nat)
  | setGrid (grid : List PointFeature)
  | getDemandDetails (coords : Coord) (profileDraw : List ℚ)

/-- The `onmessage` dispatcher.  `START`/`PAUSE` only toggle whether the tick
timer is scheduled, modelled by the `running` flag. -/
def onMessage (dist : Coord → Coord → ℚ) (s : EngineState) : InMsg → EngineState × List Msg
  | InMsg.start => ({ s with running := true }, [])
  | InMsg.pause => ({ s with running := false }, [])
  | InMsg.updateNet lines stations => updateNetwork dist lines stations s
  | InMsg.buildInfrastructure cost => (handleInfrastructureBuild cost s, [])
  | InMsg.planJourney origin destination => (s, handlePlanJourney dist s origin destination)
  | InMsg.getDemandGrid demandDraw =>
    let s := if s.demandGrid.isNone then createDemandGrid demandDraw s else s
    (s, match s.demandGrid with
        | some grid => [Msg.demandGridData grid]
        | none => [])
  | InMsg.setGrid grid => (setDemandGrid grid s, [Msg.demandGridData grid])
  | InMsg.getDemandDetails coords profileDraw => (s, handleDemandDetails dist s coords profileDraw)

/-- Engine states reachable from the worker's initial state through any
sequence of inbound commands and timer ticks. -/
inductive Reachable (dist : Coord → Coord → ℚ) : EngineState → Prop
  | init : Reachable dist initialState
  | msg {s : EngineState} (m : InMsg) : Reachable dist s → Reachable dist (onMessage dist s m).1
  | tick {s : EngineState} (o : TickOracle) :
      Reachable dist s → Reachable dist (simulationTick dist s o).1

/-!  Concrete fixtures used by the witness theorems below.  `dist0` is a
simple executable metric standing in for the haversine distance; all verified
properties are proved for an arbitrary metric. -/

def dist0 : Coord → Coord → ℚ := fun p q => |p.1 - q.1| + |p.2 - q.2|

def stF1 : PointFeature :=
  { coords := (0, 0), propId := some (Sum.inl 1), featId := none, name := some "A", demand := 0 }

def stF2 : PointFeature :=
  { coords := (1000, 0), propId := some (Sum.inl 2), featId := none, name := some "B", demand := 0 }

def stF3 : PointFeature :=
  { coords := (9000, 0), propId := some (Sum.inl 3), featId := none, name := some "C", demand := 0 }

def stF4 : PointFeature :=
  { coords := (10000, 0), propId := some (Sum.inl 4), featId := none, name := some "D", demand := 0 }

def lnF1 : LineFeature :=
  { coords := [(0, 0), (500, 0), (1000, 0)], propId := some (Sum.inl 7), featId := none }

def lnF2 : LineFeature :=
  { coords := [(9000, 0), (10000, 0)], propId := some (Sum.inl 8), featId := none }

/-- A connected two-station network built through `UPDATE_NETWORK`. -/
def net1 : EngineState := (onMessage dist0 initialState (InMsg.updateNet [lnF1] [stF1, stF2])).1

/-- A network of two mutually disconnected lines. -/
def net2 : EngineState :=
  (onMessage dist0 initialState (InMsg.updateNet [lnF1, lnF2] [stF1, stF2, stF3, stF4])).1

def oracle0 : TickOracle := { spawnDraws := fun _ => (0, 0), incCoin := true, incIdx := 0 }

/-- `net1` evaluated: one serviced line (id 7) of length 1000 with stations
1 and 2 at cumulative distances 0 and 1000, four evenly spaced trains. -/
def net1lit : EngineState :=
  { linesOrigin := [lnF1],
    stationsOrigin := [stF1, stF2],
    simTime := 0,
    running := false,
    trains := [
      { id := 1, lineId := Sum.inl 7, distanceAlongLine := 0, speed := 0, direction := 1,
        state := TrainState.moving, dwellTimeRemaining := 0, currentStationIndex := -1,
        passengers := [], capacity := 200 },
      { id := 2, lineId := Sum.inl 7, distanceAlongLine := 250, speed := 0, direction := 1,
        state := TrainState.moving, dwellTimeRemaining := 0, currentStationIndex := -1,
        passengers := [], capacity := 200 },
      { id := 3, lineId := Sum.inl 7, distanceAlongLine := 500, speed := 0, direction := 1,
        state := TrainState.moving, dwellTimeRemaining := 0, currentStationIndex := -1,
        passengers := [], capacity := 200 },
      { id := 4, lineId := Sum.inl 7, distanceAlongLine := 750, speed := 0, direction := 1,
        state := TrainState.moving, dwellTimeRemaining := 0, currentStationIndex := -1,
        passengers := [], capacity := 200 }],
    simLines := [
      { id := Sum.inl 7, coords := [(0, 0), (500, 0), (1000, 0)], length := 1000,
        stationDistances := [{ id := Sum.inl 1, distance := 0 }, { id := Sum.inl 2, distance := 1000 }],
        headway := 120 }],
    simStations := [
      { id := Sum.inl 1, coords := (0, 0), name := "A", lines := [Sum.inl 7] },
      { id := Sum.inl 2, coords := (1000, 0), name := "B", lines := [Sum.inl 7] }],
    stationQueues := [(Sum.inl 1, []), (Sum.inl 2, [])],
    allPassengers := [],
    nextTrainId := 5,
    nextPassengerId := 1,
    nextIncidentId := 1,
    totalRidership := 0,
    budget := 5000000000,
    cashflowPerHour := 0,
    totalPassengerWaitTime := 0,
    completedTrips := 0,
    dailyStationRidership := [],
    dailyLineRidership := [],
    lastDayRollover := 0,
    totalTrainKm := 0,
    lastIncidentKm := 0,
    totalRevenue := 0,
    totalOpex := 0,
    activeIncidents := [],
    demandGrid := none,
    totalDemand := 0 }

/-- `net2` evaluated: two serviced lines (ids 7 and 8) with no shared
station, eight trains. -/
def net2lit : EngineState :=
  { net1lit with
    linesOrigin := [lnF1, lnF2],
    stationsOrigin := [stF1, stF2, stF3, stF4],
    trains := net1lit.trains ++ [
      { id := 5, lineId := Sum.inl 8, distanceAlongLine := 0, speed := 0, direction := 1,
        state := TrainState.moving, dwellTimeRemaining := 0, currentStationIndex := -1,
        passengers := [], capacity := 200 },
      { id := 6, lineId := Sum.inl 8, distanceAlongLine := 250, speed := 0, direction := 1,
        state := TrainState.moving, dwellTimeRemaining := 0, currentStationIndex := -1,
        passengers := [], capacity := 200 },
      { id := 7, lineId := Sum.inl 8, distanceAlongLine := 500, speed := 0, direction := 1,
        state := TrainState.moving, dwellTimeRemaining := 0, currentStationIndex := -1,
        passengers := [], capacity := 200 },
      { id := 8, lineId := Sum.inl 8, distanceAlongLine := 750, speed := 0, direction := 1,
        state := TrainState.moving, dwellTimeRemaining := 0, currentStationIndex := -1,
        passengers := [], capacity := 200 }],
    simLines := net1lit.simLines ++ [
      { id := Sum.inl 8, coords := [(9000, 0), (10000, 0)], length := 1000,
        stationDistances := [{ id := Sum.inl 3, distance := 0 }, { id := Sum.inl 4, distance := 1000 }],
        headway := 120 }],
    simStations := net1lit.simStations ++ [
      { id := Sum.inl 3, coords := (9000, 0), name := "C", lines := [Sum.inl 8] },
      { id := Sum.inl 4, coords := (10000, 0), name := "D", lines := [Sum.inl 8] }],
    stationQueues := [(Sum.inl 1, []), (Sum.inl 2, []), (Sum.inl 3, []), (Sum.inl 4, [])],
    nextTrainId := 9 }

/-- The observable shape of a route: per leg its line, endpoints and ride
time (the engine stores a leg's ride distance only through
`rideTime = distance / 500 * 60`), plus wait and ride totals. -/
def routeSummary (r : Route) : List (SimId × SimId × SimId × ℚ) × ℚ × ℚ :=
  (r.legs.map (fun l => (l.lineId, l.fromStationId, l.toStationId, l.rideTime)), r.waitTime, r.rideTime)

def inc0 : Incident :=
  { id := 1, itype := IncidentType.extra_dwell, message := "Delays at A",
    targetId := Sum.inl 1, expiresAt := 5, value := 15 }

def line7 : SimLine :=
  { id := Sum.inl 7, coords := [(0, 0), (500, 0), (1000, 0)], length := 1000,
    stationDistances := [{ id := Sum.inl 1, distance := 0 }, { id := Sum.inl 2, distance := 1000 }],
    headway := 120 }

def capInc : Incident :=
  { id := 1, itype := IncidentType.speed_cap, message := "Speed restriction on Train 1",
    targetId := Sum.inl 1, expiresAt := 1800, value := 5 }

def train1 : Train :=
  { id := 1, lineId := Sum.inl 7, distanceAlongLine := 0, speed := 0, direction := 1,
    state := TrainState.moving, dwellTimeRemaining := 0, currentStationIndex := -1,
    passengers := [], capacity := 200 }

def trainEnd : Train := { train1 with distanceAlongLine := 1000 }

/-- Every passenger aboard the train has an assigned route. -/
def routedTrain (t : Train) : Prop := ∀ p ∈ t.passengers, p.route ≠ none

def leg1 : RouteLeg :=
  { lineId := Sum.inl 7, fromStationId := Sum.inl 1, toStationId := Sum.inl 2,
    rideTime := 120, coords := [(0, 0), (500, 0)] }

def route1 : Route := { legs := [leg1], totalTime := 210, waitTime := 90, rideTime := 120 }

theorem net1_eval : net1 = net1lit := by
  norm_num [net1, net1lit, onMessage, updateNetwork, resetSimulation, addStationToSimulation,
    prepareLines, prepareLine, prepareLineWith, snapScan, cumDist, segSum, segPairs, sortByKey, insertByKey,
    spawnTrainsForLine, upsertStation, upsertLine, qUpsert, dist0, coordKey, initialState,
    stF1, stF2, lnF1, simIdStr, addToSet, List.range_succ, max_def,
    TRAINS_PER_LINE, TRAIN_CAPACITY]

theorem net2_eval : net2 = net2lit := by
  norm_num [net2, net1lit, net2lit, onMessage, updateNetwork, resetSimulation,
    addStationToSimulation, prepareLines, prepareLine, prepareLineWith, snapScan, cumDist, segSum, segPairs,
    sortByKey, insertByKey, spawnTrainsForLine, upsertStation, upsertLine, qUpsert, dist0,
    coordKey, initialState, stF1, stF2, stF3, stF4, lnF1, lnF2, simIdStr, addToSet,
    List.range_succ, max_def, TRAINS_PER_LINE, TRAIN_CAPACITY]

/-- C1.  The app worker's `updateEconomics` charges `totalTrainKm ×
OPEX_PER_TRAIN_KM` each tick, where `totalTrainKm` is the cumulative
(never reset) kilometre counter: with one train-kilometre travelled in each
of two consecutive ticks (and no stations), the first economics update
accrues 5 but the second accrues 10 more — total 15 — because the first
kilometre is charged again, where the claimed per-tick charging would accrue
5 + 5 = 10. -/
theorem c1_opex_recharges_cumulative_km :
    (updateEconomics { initialState with totalTrainKm := 1 }).totalOpex = 5 ∧
    (updateEconomics
      { (updateEconomics { initialState with totalTrainKm := 1 }) with
        totalTrainKm := 2 }).totalOpex = 15 := by
  constructor <;>
    norm_num [updateEconomics, initialState, OPEX_PER_TRAIN_KM, OPEX_PER_STATION_HOUR,
      TICK_SECONDS, SIM_TICK_MS, TIME_MULTIPLIER, max_def]

/-- C7.  `BUILD_INFRASTRUCTURE{cost}` subtracts the cost from the budget
immediately in its own message handler (every other state component —
including the tick-accrual fields — is untouched and no tick runs), the
result is clamped to the fixed −5·10⁹ floor, whenever the floor is not hit
the subtraction is exact, and the handler never stops the tick timer. -/
theorem c7_build_cost_immediate_with_floor (dist : Coord → Coord → ℚ)
    (s : EngineState) (cost : ℚ) :
    (onMessage dist s (InMsg.buildInfrastructure cost)).1.budget =
        max (s.budget - cost) (-5000000000) ∧
    (-5000000000 ≤ s.budget - cost →
      (onMessage dist s (InMsg.buildInfrastructure cost)).1.budget = s.budget - cost) ∧
    (onMessage dist s (InMsg.buildInfrastructure cost)).1.running = s.running ∧
    (onMessage dist s (InMsg.buildInfrastructure cost)).1.simTime = s.simTime ∧
    (onMessage dist s (InMsg.buildInfrastructure cost)).1.cashflowPerHour = s.cashflowPerHour ∧
    (onMessage dist s (InMsg.buildInfrastructure cost)).1.totalOpex = s.totalOpex ∧
    (onMessage dist s (InMsg.buildInfrastructure cost)).1.totalRevenue = s.totalRevenue ∧
    (onMessage dist s (InMsg.buildInfrastructure cost)).1.trains = s.trains := by
  refine ⟨?_, ?_, rfl, rfl, rfl, rfl, rfl, rfl⟩
  · simp only [onMessage, handleInfrastructureBuild]
    split
    · rfl
    · rename_i h
      push_neg at h
      rw [max_eq_left]
      linarith
  · intro hfloor
    simp only [onMessage, handleInfrastructureBuild]
    split
    · exact max_eq_left hfloor
    · rfl

theorem c7_witness :
    (-5000000000 ≤ initialState.budget - 1000000) ∧
    (onMessage dist0 initialState (InMsg.buildInfrastructure 1000000)).1.budget =
      initialState.budget - 1000000 :=
  ⟨by norm_num [initialState],
   (c7_build_cost_immediate_with_floor dist0 initialState 1000000).2.1
     (by norm_num [initialState])⟩

/-- C9.  The tick snapshot emitted by `simulationTick` reports
`avgWaitTime = totalPassengerWaitTime / completedTrips` exactly when at least
one trip has completed, and exactly 0 when none has, so the division is
never taken with a zero divisor. -/
theorem c9_avg_wait_guarded_division (dist : Coord → Coord → ℚ)
    (s : EngineState) (o : TickOracle) :
    Msg.tick (snapshotPayload dist (simulationTick dist s o).1) ∈ (simulationTick dist s o).2 ∧
    (0 < (simulationTick dist s o).1.completedTrips →
      (snapshotPayload dist (simulationTick dist s o).1).avgWaitTime =
        (simulationTick dist s o).1.totalPassengerWaitTime /
          ((simulationTick dist s o).1.completedTrips : ℚ)) ∧
    ((simulationTick dist s o).1.completedTrips = 0 →
      (snapshotPayload dist (simulationTick dist s o).1).avgWaitTime = 0) := by
  refine ⟨?_, ?_, ?_⟩
  · simp only [simulationTick]
    simp
  · intro h
    simp only [snapshotPayload]
    rw [if_pos h]
  · intro h
    simp only [snapshotPayload]
    rw [if_neg]
    omega

theorem c9_witness :
    (simulationTick dist0 initialState oracle0).1.completedTrips = 0 ∧
    (snapshotPayload dist0 (simulationTick dist0 initialState oracle0).1).avgWaitTime = 0 := by
  have h : (simulationTick dist0 initialState oracle0).1.completedTrips = 0 := by
    norm_num [simulationTick, spawnPassengers, updateTrains, updateEconomics,
      checkForIncidents, cleanupIncidents, initialState, oracle0, qmod,
      TICK_SECONDS, SIM_TICK_MS, TIME_MULTIPLIER, INCIDENT_RATE_PER_10K_KM, max_def]
  exact ⟨h, (c9_avg_wait_guarded_division dist0 initialState oracle0).2.2 h⟩

/-- C6.  When both journey endpoints snap to stations but no path connects
them (`findRoute` yields nothing), `PLAN_JOURNEY` still emits a
`JOURNEY_PLAN_RESULT` message — a normal result, not a dropped request —
carrying `route = null` together with the walk-to-station and
walk-from-station times. -/
theorem c6_disconnected_plan_returns_null_route (dist : Coord → Coord → ℚ)
    (s : EngineState) (originCoords destCoords : Coord)
    (originStation destStation : SimStation)
    (h1 : findNearestStation dist s.simStations originCoords = some originStation)
    (h2 : findNearestStation dist s.simStations destCoords = some destStation)
    (h3 : findRoute s.simLines s.simStations originStation.id destStation.id = none) :
    handlePlanJourney dist s originCoords destCoords =
      [Msg.journeyPlanResult none
        (dist originCoords originStation.coords / WALK_SPEED_MPS)
        (dist destCoords destStation.coords / WALK_SPEED_MPS)] := by
  simp only [handlePlanJourney, h1, h2, h3]

theorem c6_witness :
    handlePlanJourney dist0 net2 (10, 0) (9990, 0) =
      [Msg.journeyPlanResult none (10 / WALK_SPEED_MPS) (10 / WALK_SPEED_MPS)] := by
  have h := c6_disconnected_plan_returns_null_route dist0 net2 (10, 0) (9990, 0)
    { id := Sum.inl 1, coords := (0, 0), name := "A", lines := [Sum.inl 7] }
    { id := Sum.inl 4, coords := (10000, 0), name := "D", lines := [Sum.inl 8] }
    (by rw [net2_eval]
        norm_num [findNearestStation, net2lit, net1lit, dist0, List.foldl])
    (by rw [net2_eval]
        norm_num [findNearestStation, net2lit, net1lit, dist0, List.foldl])
    (by rw [net2_eval]
        norm_num [findRoute, routeFuel, findRouteAux, expandLine, walkIdx,
          lookupLine, lookupStation, extractLineSegment, net2lit, net1lit,
          List.range_succ, List.find?, List.findIdx?])
  rw [h]
  norm_num [dist0]

/-- C5.  On a network whose only serviced line carries exactly the two
matched stations `a` (at cumulative distance `da`) and `b` (at `db`),
`findRoute` returns — in either query direction — a route of exactly one leg
between the two stations on that line, whose ride distance `|da − db|` is
recorded as `rideTime = |da − db| / 500 * 60`, with the flat 90-second
boarding wait. -/
theorem c5_two_station_route_single_leg (a b lid : SimId) (ca cb : Coord)
    (na nb : String) (cs : List Coord) (len hw da db : ℚ) (hab : a ≠ b) :
    (findRoute [{ id := lid, coords := cs, length := len,
                  stationDistances := [{ id := a, distance := da }, { id := b, distance := db }],
                  headway := hw }]
        [{ id := a, coords := ca, name := na, lines := [lid] },
         { id := b, coords := cb, name := nb, lines := [lid] }] a b).map routeSummary =
      some ([(lid, a, b, (|db - da| / 500) * 60)], 90, (|db - da| / 500) * 60) ∧
    (findRoute [{ id := lid, coords := cs, length := len,
                  stationDistances := [{ id := a, distance := da }, { id := b, distance := db }],
                  headway := hw }]
        [{ id := a, coords := ca, name := na, lines := [lid] },
         { id := b, coords := cb, name := nb, lines := [lid] }] b a).map routeSummary =
      some ([(lid, b, a, (|da - db| / 500) * 60)], 90, (|da - db| / 500) * 60) := by
  have hba : b ≠ a := Ne.symm hab
  constructor <;>
    simp [findRoute, routeFuel, findRouteAux, lookupStation, lookupLine, expandLine, walkIdx,
      extractLineSegment, hab, hba, routeSummary, List.range_succ, List.find?, List.findIdx?]

theorem c5_witness :
    (Sum.inl 1 : SimId) ≠ Sum.inl 2 ∧
    (findRoute [{ id := Sum.inl 7, coords := [(0, 0), (1000, 0)], length := 1000,
                  stationDistances := [{ id := Sum.inl 1, distance := 0 },
                                       { id := Sum.inl 2, distance := 1000 }],
                  headway := 120 }]
        [{ id := Sum.inl 1, coords := (0, 0), name := "A", lines := [Sum.inl 7] },
         { id := Sum.inl 2, coords := (1000, 0), name := "B", lines := [Sum.inl 7] }]
        (Sum.inl 1) (Sum.inl 2)).map routeSummary =
      some ([(Sum.inl 7, Sum.inl 1, Sum.inl 2, (|(1000 : ℚ) - 0| / 500) * 60)], 90,
            (|(1000 : ℚ) - 0| / 500) * 60) :=
  ⟨by decide,
   (c5_two_station_route_single_leg (Sum.inl 1) (Sum.inl 2) (Sum.inl 7) (0, 0) (1000, 0)
      "A" "B" [(0, 0), (1000, 0)] 1000 120 0 1000 (by decide)).1⟩

/-! Frame lemmas: which state components each tick sub-step leaves alone. -/

theorem foldlPreserve {β γ δ : Type} (g : β → δ) (f : β → γ → β)
    (h : ∀ b c, g (f b c) = g b) : ∀ (l : List γ) (b : β), g (l.foldl f b) = g b
  | [], _ => rfl
  | c :: l, b => by rw [List.foldl_cons, foldlPreserve g f h l (f b c), h]

theorem alightStep_frame (station : SimStation) (s : EngineState) (p : Passenger) :
    (alightStep station s p).activeIncidents = s.activeIncidents ∧
    (alightStep station s p).simTime = s.simTime ∧
    (alightStep station s p).simLines = s.simLines ∧
    (alightStep station s p).simStations = s.simStations ∧
    (alightStep station s p).trains = s.trains := by
  simp only [alightStep]
  split <;> exact ⟨rfl, rfl, rfl, rfl, rfl⟩

theorem handleStationArrival_frame (s : EngineState) (t : Train) (line : SimLine)
    (sd : StationDist) :
    (handleStationArrival s t line sd).2.activeIncidents = s.activeIncidents ∧
    (handleStationArrival s t line sd).2.simTime = s.simTime ∧
    (handleStationArrival s t line sd).2.simLines = s.simLines ∧
    (handleStationArrival s t line sd).2.simStations = s.simStations ∧
    (handleStationArrival s t line sd).2.trains = s.trains := by
  simp only [handleStationArrival]
  split
  · exact ⟨rfl, rfl, rfl, rfl, rfl⟩
  · rename_i station heq
    have h1 := foldlPreserve EngineState.activeIncidents (alightStep station)
      (fun b c => (alightStep_frame station b c).1)
    have h2 := foldlPreserve EngineState.simTime (alightStep station)
      (fun b c => (alightStep_frame station b c).2.1)
    have h3 := foldlPreserve EngineState.simLines (alightStep station)
      (fun b c => (alightStep_frame station b c).2.2.1)
    have h4 := foldlPreserve EngineState.simStations (alightStep station)
      (fun b c => (alightStep_frame station b c).2.2.2.1)
    have h5 := foldlPreserve EngineState.trains (alightStep station)
      (fun b c => (alightStep_frame station b c).2.2.2.2)
    split <;> exact ⟨h1 _ _, h2 _ _, h3 _ _, h4 _ _, h5 _ _⟩

theorem tickTrain_frame (s : EngineState) (t : Train) :
    (tickTrain s t).2.1.activeIncidents = s.activeIncidents ∧
    (tickTrain s t).2.1.simTime = s.simTime ∧
    (tickTrain s t).2.1.simLines = s.simLines ∧
    (tickTrain s t).2.1.simStations = s.simStations := by
  simp only [tickTrain]
  repeat' split
  all_goals
    first
      | exact ⟨rfl, rfl, rfl, rfl⟩
      | exact ⟨(handleStationArrival_frame _ _ _ _).1,
               (handleStationArrival_frame _ _ _ _).2.1,
               (handleStationArrival_frame _ _ _ _).2.2.1,
               (handleStationArrival_frame _ _ _ _).2.2.2.1⟩

theorem updateTrains_frame (s : EngineState) :
    (updateTrains s).activeIncidents = s.activeIncidents ∧
    (updateTrains s).simTime = s.simTime ∧
    (updateTrains s).simLines = s.simLines ∧
    (updateTrains s).simStations = s.simStations := by
  unfold updateTrains
  refine ⟨?_, ?_, ?_, ?_⟩
  · exact foldlPreserve (fun acc => acc.1.activeIncidents)
      (fun acc t =>
        let r := tickTrain acc.1 t
        (r.2.1, acc.2.1 ++ [r.1], acc.2.2 + r.2.2))
      (fun b c => (tickTrain_frame b.1 c).1) s.trains (s, ([] : List Train), (0 : ℚ))
  · exact foldlPreserve (fun acc => acc.1.simTime)
      (fun acc t =>
        let r := tickTrain acc.1 t
        (r.2.1, acc.2.1 ++ [r.1], acc.2.2 + r.2.2))
      (fun b c => (tickTrain_frame b.1 c).2.1) s.trains (s, ([] : List Train), (0 : ℚ))
  · exact foldlPreserve (fun acc => acc.1.simLines)
      (fun acc t =>
        let r := tickTrain acc.1 t
        (r.2.1, acc.2.1 ++ [r.1], acc.2.2 + r.2.2))
      (fun b c => (tickTrain_frame b.1 c).2.2.1) s.trains (s, ([] : List Train), (0 : ℚ))
  · exact foldlPreserve (fun acc => acc.1.simStations)
      (fun acc t =>
        let r := tickTrain acc.1 t
        (r.2.1, acc.2.1 ++ [r.1], acc.2.2 + r.2.2))
      (fun b c => (tickTrain_frame b.1 c).2.2.2) s.trains (s, ([] : List Train), (0 : ℚ))

theorem spawnStep_frame (dist : Coord → Coord → ℚ) (grid : List PointFeature)
    (s : EngineState) (draw : Nat × Nat) :
    (spawnStep dist grid s draw).activeIncidents = s.activeIncidents ∧
    (spawnStep dist grid s draw).simTime = s.simTime ∧
    (spawnStep dist grid s draw).trains = s.trains ∧
    (spawnStep dist grid s draw).simLines = s.simLines ∧
    (spawnStep dist grid s draw).simStations = s.simStations := by
  simp only [spawnStep]
  split <;> try exact ⟨rfl, rfl, rfl, rfl, rfl⟩
  split
  · exact ⟨rfl, rfl, rfl, rfl, rfl⟩
  · split <;> try exact ⟨rfl, rfl, rfl, rfl, rfl⟩
    split <;> exact ⟨rfl, rfl, rfl, rfl, rfl⟩

theorem spawnPassengers_frame (dist : Coord → Coord → ℚ) (s : EngineState)
    (hour : Nat) (draws : Nat → Nat × Nat) :
    (spawnPassengers dist s hour draws).activeIncidents = s.activeIncidents ∧
    (spawnPassengers dist s hour draws).simTime = s.simTime ∧
    (spawnPassengers dist s hour draws).trains = s.trains ∧
    (spawnPassengers dist s hour draws).simLines = s.simLines ∧
    (spawnPassengers dist s hour draws).simStations = s.simStations := by
  simp only [spawnPassengers]
  split
  · exact ⟨rfl, rfl, rfl, rfl, rfl⟩
  · split
    · exact ⟨rfl, rfl, rfl, rfl, rfl⟩
    · refine ⟨?_, ?_, ?_, ?_, ?_⟩
      · exact foldlPreserve EngineState.activeIncidents _
          (fun b c => (spawnStep_frame dist _ b c).1) _ s
      · exact foldlPreserve EngineState.simTime _
          (fun b c => (spawnStep_frame dist _ b c).2.1) _ s
      · exact foldlPreserve EngineState.trains _
          (fun b c => (spawnStep_frame dist _ b c).2.2.1) _ s
      · exact foldlPreserve EngineState.simLines _
          (fun b c => (spawnStep_frame dist _ b c).2.2.2.1) _ s
      · exact foldlPreserve EngineState.simStations _
          (fun b c => (spawnStep_frame dist _ b c).2.2.2.2) _ s

theorem updateEconomics_frame (s : EngineState) :
    (updateEconomics s).activeIncidents = s.activeIncidents ∧
    (updateEconomics s).simTime = s.simTime ∧
    (updateEconomics s).trains = s.trains ∧
    (updateEconomics s).completedTrips = s.completedTrips := by
  exact ⟨rfl, rfl, rfl, rfl⟩

theorem checkForIncidents_frame (s : EngineState) (coin : Bool) (idx : Nat) :
    (checkForIncidents s coin idx).1.simTime = s.simTime ∧
    (checkForIncidents s coin idx).1.trains = s.trains := by
  simp only [checkForIncidents]
  split
  · exact ⟨rfl, rfl⟩
  · split
    · split <;> exact ⟨rfl, rfl⟩
    · split <;> exact ⟨rfl, rfl⟩

theorem checkForIncidents_keeps (s : EngineState) (coin : Bool) (idx : Nat)
    (inc : Incident) (h : inc ∈ s.activeIncidents) :
    inc ∈ (checkForIncidents s coin idx).1.activeIncidents := by
  simp only [checkForIncidents]
  split
  · exact h
  · split
    · split
      · exact h
      · exact List.mem_append_left _ h
    · split
      · exact h
      · exact List.mem_append_left _ h

/-- C8.  At the end of every tick no active incident has `expiresAt ≤
simTime`, and every incident active at the start of the tick whose expiry
time is reached during it is removed within that tick, with an
inactive-transition `INCIDENT_EVENT` emitted for it. -/
theorem c8_expired_incidents_removed_each_tick (dist : Coord → Coord → ℚ)
    (s : EngineState) (o : TickOracle) :
    (∀ inc ∈ (simulationTick dist s o).1.activeIncidents,
        (simulationTick dist s o).1.simTime < inc.expiresAt) ∧
    (∀ inc ∈ s.activeIncidents, inc.expiresAt ≤ s.simTime + TICK_SECONDS →
        inc ∉ (simulationTick dist s o).1.activeIncidents ∧
        Msg.incidentEvent inc false ∈ (simulationTick dist s o).2) := by
  unfold simulationTick
  set s1 : EngineState := { s with simTime := s.simTime + TICK_SECONDS } with hs1
  set s2 : EngineState := if Int.floor (s1.lastDayRollover / 86400) < Int.floor (s1.simTime / 86400)
    then { s1 with dailyStationRidership := [], dailyLineRidership := [],
                   lastDayRollover := s1.simTime }
    else s1 with hs2
  have hs2time : s2.simTime = s.simTime + TICK_SECONDS := by
    rw [hs2]
    split <;> rfl
  have hs2act : s2.activeIncidents = s.activeIncidents := by
    rw [hs2]
    split <;> rfl
  set s3 := spawnPassengers dist s2 ((Int.floor (qmod s1.simTime 86400 / 3600)).toNat)
    o.spawnDraws with hs3
  set s4 := updateTrains s3 with hs4
  set s5 := updateEconomics s4 with hs5
  have hs5time : s5.simTime = s.simTime + TICK_SECONDS := by
    rw [hs5, hs4, hs3]
    rw [(updateEconomics_frame _).2.1, (updateTrains_frame _).2.1,
      (spawnPassengers_frame _ _ _ _).2.1, hs2time]
  have hs5act : s5.activeIncidents = s.activeIncidents := by
    rw [hs5, hs4, hs3]
    rw [(updateEconomics_frame _).1, (updateTrains_frame _).1,
      (spawnPassengers_frame _ _ _ _).1, hs2act]
  set chk := checkForIncidents s5 o.incCoin o.incIdx with hchk
  have hchktime : chk.1.simTime = s.simTime + TICK_SECONDS := by
    rw [hchk, (checkForIncidents_frame _ _ _).1, hs5time]
  constructor
  · intro inc hmem
    simp only [cleanupIncidents, List.mem_filter, decide_eq_true_eq] at hmem
    simpa [cleanupIncidents, hchktime] using hmem.2
  · intro inc hmem hexp
    have hin : inc ∈ chk.1.activeIncidents := by
      rw [hchk]
      exact checkForIncidents_keeps s5 _ _ inc (hs5act ▸ hmem)
    constructor
    · simp only [cleanupIncidents, List.mem_filter, decide_eq_true_eq]
      intro hcontra
      rw [hchktime] at hcontra
      exact absurd hexp (not_le.mpr hcontra.2)
    · have hev : Msg.incidentEvent inc false ∈ (cleanupIncidents chk.1).2 := by
        simp only [cleanupIncidents, List.mem_map, List.mem_filter, decide_eq_true_eq]
        exact ⟨inc, ⟨hin, by rw [hchktime]; exact hexp⟩, rfl⟩
      simp only [List.mem_append]
      exact Or.inl (Or.inr hev)

theorem c8_witness :
    inc0 ∈ ({ initialState with activeIncidents := [inc0] } : EngineState).activeIncidents ∧
    inc0.expiresAt ≤ ({ initialState with activeIncidents := [inc0] } : EngineState).simTime +
      TICK_SECONDS ∧
    (inc0 ∉ (simulationTick dist0 { initialState with activeIncidents := [inc0] }
        oracle0).1.activeIncidents ∧
      Msg.incidentEvent inc0 false ∈ (simulationTick dist0
        { initialState with activeIncidents := [inc0] } oracle0).2) := by
  have h1 : inc0 ∈ ({ initialState with activeIncidents := [inc0] } : EngineState).activeIncidents :=
    List.mem_singleton.mpr rfl
  have h2 : inc0.expiresAt ≤
      ({ initialState with activeIncidents := [inc0] } : EngineState).simTime + TICK_SECONDS := by
    norm_num [inc0, initialState, TICK_SECONDS, SIM_TICK_MS, TIME_MULTIPLIER]
  exact ⟨h1, h2,
    (c8_expired_incidents_removed_each_tick dist0
      { initialState with activeIncidents := [inc0] } oracle0).2 inc0 h1 h2⟩

/-! Kinematics support lemmas. -/

theorem capFold_le_init (tid : Nat) : ∀ (l : List Incident) (init : ℚ),
    l.foldl (fun ts inc =>
      if inc.itype = IncidentType.speed_cap ∧ inc.targetId = Sum.inl tid then
        min ts inc.value
      else ts) init ≤ init
  | [], _ => le_refl _
  | inc :: l, init => by
    rw [List.foldl_cons]
    refine le_trans (capFold_le_init tid l _) ?_
    split
    · exact min_le_left _ _
    · exact le_refl _

theorem capFold_le_mem (tid : Nat) (inc : Incident)
    (hty : inc.itype = IncidentType.speed_cap) (htg : inc.targetId = Sum.inl tid) :
    ∀ (l : List Incident) (init : ℚ), inc ∈ l →
    l.foldl (fun ts i =>
      if i.itype = IncidentType.speed_cap ∧ i.targetId = Sum.inl tid then
        min ts i.value
      else ts) init ≤ inc.value
  | [], _, h => absurd h (List.not_mem_nil _)
  | a :: l, init, h => by
    rw [List.foldl_cons]
    rcases List.mem_cons.mp h with h1 | h1
    · subst h1
      rw [if_pos ⟨hty, htg⟩]
      exact le_trans (capFold_le_init tid l _) (min_le_right _ _)
    · exact capFold_le_mem tid inc hty htg l _ h1

theorem effectiveTargetSpeed_le (l : List Incident) (tid : Nat) (inc : Incident)
    (hmem : inc ∈ l) (hty : inc.itype = IncidentType.speed_cap)
    (htg : inc.targetId = Sum.inl tid) : effectiveTargetSpeed l tid ≤ inc.value :=
  capFold_le_mem tid inc hty htg l MAX_TRAIN_SPEED hmem

theorem capFold_id (tid : Nat) : ∀ (l : List Incident) (init : ℚ),
    (∀ inc ∈ l, ¬(inc.itype = IncidentType.speed_cap ∧ inc.targetId = Sum.inl tid)) →
    l.foldl (fun ts i =>
      if i.itype = IncidentType.speed_cap ∧ i.targetId = Sum.inl tid then
        min ts i.value
      else ts) init = init
  | [], _, _ => rfl
  | a :: l, init, h => by
    rw [List.foldl_cons, if_neg (h a (List.mem_cons_self a l))]
    exact capFold_id tid l init (fun inc hm => h inc (List.mem_cons_of_mem a hm))

theorem effectiveTargetSpeed_nominal (l : List Incident) (tid : Nat)
    (h : ∀ inc ∈ l, ¬(inc.itype = IncidentType.speed_cap ∧ inc.targetId = Sum.inl tid)) :
    effectiveTargetSpeed l tid = MAX_TRAIN_SPEED :=
  capFold_id tid l MAX_TRAIN_SPEED h

theorem nextScanF_ok (dal : ℚ) (l0 : List StationDist) :
    ∀ (l : List StationDist) (acc : Option (StationDist × ℚ)),
    (∀ st ∈ l, st ∈ l0) →
    (∀ x e, acc = some (x, e) → x ∈ l0 ∧ 0 < e) →
    ∀ ns d,
    l.foldl (fun acc station =>
      if dal < station.distance then
        let d := station.distance - dal
        match acc with
        | none => some (station, d)
        | some (_, m) => if d < m then some (station, d) else acc
      else acc) acc = some (ns, d) → ns ∈ l0 ∧ 0 < d
  | [], acc, _, hacc, ns, d, h => hacc ns d h
  | a :: l, acc, hsub, hacc, ns, d, h => by
    rw [List.foldl_cons] at h
    refine nextScanF_ok dal l0 l _ (fun st hst => hsub st (List.mem_cons_of_mem a hst)) ?_ ns d h
    intro x e hx
    split at hx
    · rename_i hlt
      split at hx
      · cases hx
        exact ⟨hsub a (List.mem_cons_self a l), sub_pos.mpr hlt⟩
      · rename_i y m
        dsimp only at hx
        split at hx
        · cases hx
          exact ⟨hsub a (List.mem_cons_self a l), sub_pos.mpr hlt⟩
        · exact hacc x e hx
    · exact hacc x e hx

theorem nextScanB_ok (dal : ℚ) (l0 : List StationDist) :
    ∀ (l : List StationDist) (acc : Option (StationDist × ℚ)),
    (∀ st ∈ l, st ∈ l0) →
    (∀ x e, acc = some (x, e) → x ∈ l0 ∧ 0 < e) →
    ∀ ns d,
    l.foldl (fun acc station =>
      if station.distance < dal then
        let d := dal - station.distance
        match acc with
        | none => some (station, d)
        | some (_, m) => if d < m then some (station, d) else acc
      else acc) acc = some (ns, d) → ns ∈ l0 ∧ 0 < d
  | [], acc, _, hacc, ns, d, h => hacc ns d h
  | a :: l, acc, hsub, hacc, ns, d, h => by
    rw [List.foldl_cons] at h
    refine nextScanB_ok dal l0 l _ (fun st hst => hsub st (List.mem_cons_of_mem a hst)) ?_ ns d h
    intro x e hx
    split at hx
    · rename_i hlt
      split at hx
      · cases hx
        exact ⟨hsub a (List.mem_cons_self a l), sub_pos.mpr hlt⟩
      · rename_i y m
        dsimp only at hx
        split at hx
        · cases hx
          exact ⟨hsub a (List.mem_cons_self a l), sub_pos.mpr hlt⟩
        · exact hacc x e hx
    · exact hacc x e hx

/-- The station returned by `getNextStation` belongs to the line's station
list and lies strictly ahead of the train. -/
theorem getNextStation_some (t : Train) (line : SimLine) (ns : StationDist) (d : ℚ)
    (h : getNextStation t line = some (ns, d)) :
    ns ∈ line.stationDistances ∧ 0 < d := by
  unfold getNextStation at h
  split at h
  · exact nextScanF_ok t.distanceAlongLine line.stationDistances line.stationDistances none
      (fun st hst => hst) (fun x e hx => by cases hx) ns d h
  · exact nextScanB_ok t.distanceAlongLine line.stationDistances line.stationDistances.reverse none
      (fun st hst => List.mem_reverse.mp hst) (fun x e hx => by cases hx) ns d h

theorem boardStep_tfields (L : List SimLine) (S : List SimStation)
    (acc : Train × List Passenger × Nat) (p : Passenger) :
    (boardStep L S acc p).1.speed = acc.1.speed ∧
    (boardStep L S acc p).1.distanceAlongLine = acc.1.distanceAlongLine ∧
    (boardStep L S acc p).1.direction = acc.1.direction ∧
    (boardStep L S acc p).1.state = acc.1.state := by
  simp only [boardStep]
  repeat' split
  all_goals exact ⟨rfl, rfl, rfl, rfl⟩

theorem boardFold_tfields (L : List SimLine) (S : List SimStation) :
    ∀ (queue : List Passenger) (init : Train × List Passenger × Nat),
    (queue.foldl (boardStep L S) init).1.speed = init.1.speed ∧
    (queue.foldl (boardStep L S) init).1.distanceAlongLine = init.1.distanceAlongLine ∧
    (queue.foldl (boardStep L S) init).1.direction = init.1.direction ∧
    (queue.foldl (boardStep L S) init).1.state = init.1.state
  | [], _ => ⟨rfl, rfl, rfl, rfl⟩
  | p :: q, init => by
    rw [List.foldl_cons]
    have h := boardStep_tfields L S init p
    have h2 := boardFold_tfields L S q (boardStep L S init p)
    exact ⟨h2.1.trans h.1, h2.2.1.trans h.2.1, h2.2.2.1.trans h.2.2.1, h2.2.2.2.trans h.2.2.2⟩

/-- The train `handleStationArrival` hands back: speed 0, snapped to the
station's distance, direction unchanged, dwelling. -/
theorem handleStationArrival_train (s : EngineState) (t : Train) (line : SimLine)
    (sd : StationDist) :
    (handleStationArrival s t line sd).1.speed = 0 ∧
    (handleStationArrival s t line sd).1.distanceAlongLine = sd.distance ∧
    (handleStationArrival s t line sd).1.direction = t.direction ∧
    (handleStationArrival s t line sd).1.state = TrainState.dwelling := by
  simp only [handleStationArrival]
  repeat' split
  all_goals
    first
      | exact ⟨rfl, rfl, rfl, rfl⟩
      | exact ⟨(boardFold_tfields _ _ _ _).1, (boardFold_tfields _ _ _ _).2.1,
               (boardFold_tfields _ _ _ _).2.2.1, (boardFold_tfields _ _ _ _).2.2.2⟩

theorem clamp_le_max (value mn mx : ℚ) : clamp value mn mx ≤ mx := min_le_left _ _

set_option maxHeartbeats 2000000 in
/-- C4.  While a `speed_cap` incident targeting a simulated train is in the
active set, that train's speed after its tick update never exceeds the cap
value (for a moving train unconditionally; for a dwelling train, whose speed
was zeroed on arrival, whenever it already respects the cap); and once no
cap incident targets the train any more, a moving train with no station
ahead accelerates toward the nominal `MAX_TRAIN_SPEED` again. -/
theorem c4_speed_cap_enforced_and_released :
    (∀ (s : EngineState) (train : Train) (line : SimLine) (inc : Incident),
      lookupLine s.simLines train.lineId = some line →
      2 ≤ line.stationDistances.length →
      inc ∈ s.activeIncidents →
      inc.itype = IncidentType.speed_cap →
      inc.targetId = Sum.inl train.id →
      (train.state = TrainState.moving ∨ train.speed ≤ inc.value) →
      (tickTrain s train).1.speed ≤ inc.value) ∧
    (∀ (s : EngineState) (train : Train) (line : SimLine),
      lookupLine s.simLines train.lineId = some line →
      2 ≤ line.stationDistances.length →
      train.state = TrainState.moving →
      0 ≤ train.speed →
      (∀ inc ∈ s.activeIncidents,
        ¬(inc.itype = IncidentType.speed_cap ∧ inc.targetId = Sum.inl train.id)) →
      getNextStation train line = none →
      (tickTrain s train).1.speed =
        min MAX_TRAIN_SPEED (train.speed + TRAIN_ACCELERATION * TICK_SECONDS)) := by
  constructor
  · intro s train line inc hline hlen hmem hty htg hpre
    have htv : effectiveTargetSpeed s.activeIncidents train.id ≤ inc.value :=
      effectiveTargetSpeed_le s.activeIncidents train.id inc hmem hty htg
    simp only [tickTrain, hline]
    rw [if_neg (not_lt.mpr hlen)]
    cases hst : train.state with
    | dwelling =>
      rcases hpre with hmv | hsp
      · rw [hst] at hmv
        cases hmv
      · simp only [hst]
        split <;> exact hsp
    | moving =>
      simp only [hst]
      cases hnext : getNextStation train line with
      | none =>
        simp only [hnext]
        repeat' split
        all_goals exact le_trans (clamp_le_max _ _ _) htv
      | some nsd =>
        obtain ⟨ns, d⟩ := nsd
        have hpos := (getNextStation_some train line ns d hnext).2
        have h12 : (0 : ℚ) < TICK_SECONDS := by
          norm_num [TICK_SECONDS, SIM_TICK_MS, TIME_MULTIPLIER]
        have hv0aux : ∀ x : ℚ,
            d ≤ clamp x 0 (effectiveTargetSpeed s.activeIncidents train.id) * TICK_SECONDS →
            0 ≤ inc.value := by
          intro x hx
          by_contra hneg
          push_neg at hneg
          have hcl : clamp x 0 (effectiveTargetSpeed s.activeIncidents train.id) ≤ inc.value :=
            le_trans (clamp_le_max _ _ _) htv
          have hnp : clamp x 0 (effectiveTargetSpeed s.activeIncidents train.id) *
              TICK_SECONDS ≤ 0 :=
            mul_nonpos_of_nonpos_of_nonneg (le_trans hcl hneg.le) h12.le
          linarith [hpos]
        simp only [hnext]
        repeat' split
        all_goals
          first
            | exact le_trans (clamp_le_max _ _ _) htv
            | exact le_trans (le_of_eq (handleStationArrival_train s _ line ns).1)
                (hv0aux _ (by assumption))
  · intro s train line hline hlen hst hsp0 hnone hnext
    have hts : effectiveTargetSpeed s.activeIncidents train.id = MAX_TRAIN_SPEED :=
      effectiveTargetSpeed_nominal s.activeIncidents train.id hnone
    simp only [tickTrain, hline, hst, hnext, Bool.false_eq_true, if_false]
    rw [if_neg (not_lt.mpr hlen)]
    have hnn : (0 : ℚ) ≤ train.speed + TRAIN_ACCELERATION * TICK_SECONDS := by
      have : (0 : ℚ) ≤ TRAIN_ACCELERATION * TICK_SECONDS := by
        norm_num [TRAIN_ACCELERATION, TICK_SECONDS, SIM_TICK_MS, TIME_MULTIPLIER]
      linarith
    repeat' split
    all_goals
      show clamp (train.speed + TRAIN_ACCELERATION * TICK_SECONDS) 0
          (effectiveTargetSpeed s.activeIncidents train.id) = _
      rw [clamp, hts, max_eq_right hnn]

set_option maxHeartbeats 2000000 in
/-- C3.  For a train whose line exists and has at least two matched stations
(themselves lying within `[0, length]`), one tick update keeps
`distanceAlongLine` within `[0, line.length]`, and the direction changes only
at the two boundary values: it is set to −1 exactly when the position reaches
`line.length` and to +1 exactly when it reaches 0. -/
theorem c3_distance_within_bounds_direction_flips (s : EngineState) (train : Train)
    (line : SimLine)
    (hline : lookupLine s.simLines train.lineId = some line)
    (hlen : 2 ≤ line.stationDistances.length)
    (hsd : ∀ sd ∈ line.stationDistances, 0 ≤ sd.distance ∧ sd.distance ≤ line.length)
    (hd0 : 0 ≤ train.distanceAlongLine) (hd1 : train.distanceAlongLine ≤ line.length) :
    (0 ≤ (tickTrain s train).1.distanceAlongLine ∧
      (tickTrain s train).1.distanceAlongLine ≤ line.length) ∧
    ((tickTrain s train).1.direction ≠ train.direction →
      ((tickTrain s train).1.distanceAlongLine = line.length ∧
        (tickTrain s train).1.direction = -1) ∨
      ((tickTrain s train).1.distanceAlongLine = 0 ∧
        (tickTrain s train).1.direction = 1)) := by
  have hlen0 : (0 : ℚ) ≤ line.length := by
    cases h : line.stationDistances with
    | nil =>
      rw [h] at hlen
      simp at hlen
    | cons a l =>
      have ha : a ∈ line.stationDistances := h ▸ List.mem_cons_self a l
      exact le_trans (hsd a ha).1 (hsd a ha).2
  simp only [tickTrain, hline]
  rw [if_neg (not_lt.mpr hlen)]
  cases hst : train.state with
  | dwelling =>
    simp only [hst]
    split <;> exact ⟨⟨hd0, hd1⟩, fun hne => absurd rfl hne⟩
  | moving =>
    simp only [hst]
    cases hnext : getNextStation train line with
    | none =>
      simp only [hnext]
      repeat' split
      all_goals first
        | exact ⟨⟨hlen0, le_refl _⟩, fun _ => Or.inl ⟨rfl, rfl⟩⟩
        | exact ⟨⟨le_refl 0, hlen0⟩, fun _ => Or.inr ⟨rfl, rfl⟩⟩
        | (rename_i hA hB
           exact ⟨⟨le_of_lt (not_le.mp hB), le_of_lt (not_le.mp hA)⟩,
                  fun hne => absurd rfl hne⟩)
    | some nsd =>
      obtain ⟨ns, d⟩ := nsd
      have hns := (getNextStation_some train line ns d hnext).1
      simp only [hnext]
      repeat' split
      all_goals first
        | exact ⟨⟨hlen0, le_refl _⟩, fun _ => Or.inl ⟨rfl, rfl⟩⟩
        | exact ⟨⟨le_refl 0, hlen0⟩, fun _ => Or.inr ⟨rfl, rfl⟩⟩
        | (rename_i hA hB
           exact ⟨⟨le_of_lt (not_le.mp hB), le_of_lt (not_le.mp hA)⟩,
                  fun hne => absurd rfl hne⟩)
        | (rename_i hA hB
           exact ⟨⟨le_of_lt (not_le.mp hB), le_of_lt (not_le.mp hA)⟩,
                  fun hne => absurd ((handleStationArrival_train s _ line ns).2.2.1) hne⟩)

theorem c3_witness :
    (0 ≤ (tickTrain net1lit train1).1.distanceAlongLine ∧
      (tickTrain net1lit train1).1.distanceAlongLine ≤ line7.length) ∧
    ((tickTrain net1lit train1).1.direction ≠ train1.direction →
      ((tickTrain net1lit train1).1.distanceAlongLine = line7.length ∧
        (tickTrain net1lit train1).1.direction = -1) ∨
      ((tickTrain net1lit train1).1.distanceAlongLine = 0 ∧
        (tickTrain net1lit train1).1.direction = 1)) := by
  refine c3_distance_within_bounds_direction_flips net1lit train1 line7 rfl
    (by norm_num [line7]) ?_ (le_refl 0) (by norm_num [line7, train1])
  intro sd hmem
  simp only [line7, List.mem_cons, List.not_mem_nil, or_false] at hmem
  rcases hmem with h | h <;> subst h <;> norm_num [line7]

theorem c4_witness :
    (tickTrain { net1lit with activeIncidents := [capInc] } train1).1.speed ≤ capInc.value ∧
    (tickTrain net1lit trainEnd).1.speed =
      min MAX_TRAIN_SPEED (trainEnd.speed + TRAIN_ACCELERATION * TICK_SECONDS) := by
  constructor
  · exact c4_speed_cap_enforced_and_released.1
      { net1lit with activeIncidents := [capInc] } train1 line7 capInc
      (by rfl) (by norm_num [line7]) (List.mem_singleton.mpr rfl) rfl rfl
      (Or.inl rfl)
  · exact c4_speed_cap_enforced_and_released.2 net1lit trainEnd line7
      (by rfl) (by norm_num [line7]) rfl (le_refl 0)
      (fun inc h => absurd h (List.not_mem_nil _))
      (by norm_num [getNextStation, trainEnd, train1, line7])

/-! Onboard-route invariant (C10). -/

theorem boardStep_routed (L : List SimLine) (S : List SimStation)
    (acc : Train × List Passenger × Nat) (p0 : Passenger)
    (h : routedTrain acc.1) : routedTrain (boardStep L S acc p0).1 := by
  simp only [boardStep]
  split
  · exact h
  · split
    · exact h
    · rename_i leg heq
      split
      · intro q hq
        rcases List.mem_append.mp hq with hq1 | hq1
        · exact h q hq1
        · rw [List.mem_singleton.mp hq1]
          intro hcon
          rw [hcon] at heq
          simp at heq
      · exact h

theorem boardFold_routed (L : List SimLine) (S : List SimStation) :
    ∀ (queue : List Passenger) (init : Train × List Passenger × Nat),
    routedTrain init.1 → routedTrain (queue.foldl (boardStep L S) init).1
  | [], _, h => h
  | p :: q, init, h => by
    rw [List.foldl_cons]
    exact boardFold_routed L S q (boardStep L S init p) (boardStep_routed L S init p h)

theorem alightFilter_routed (sid : SimId) (l : List Passenger) :
    ∀ p ∈ l.filter (fun p =>
      match p.route with
      | none => false
      | some r =>
        match r.legs.get? p.currentLegIndex with
        | some leg => decide (leg.toStationId ≠ sid)
        | none => true), p.route ≠ none := by
  intro p hp hcon
  have hpred := (List.mem_filter.mp hp).2
  rw [hcon] at hpred
  simp at hpred

theorem handleStationArrival_routed (s : EngineState) (t : Train) (line : SimLine)
    (sd : StationDist) (h : routedTrain t) :
    routedTrain (handleStationArrival s t line sd).1 := by
  simp only [handleStationArrival]
  split
  · exact h
  · rename_i station heq
    repeat' split
    all_goals
      first
        | exact fun p hp => alightFilter_routed station.id _ p hp
        | exact boardFold_routed _ _ _ _ (fun p hp => alightFilter_routed station.id _ p hp)

theorem tickTrain_routed (s : EngineState) (t : Train) (h : routedTrain t) :
    routedTrain (tickTrain s t).1 := by
  simp only [tickTrain]
  repeat' split
  all_goals
    first
      | exact h
      | exact handleStationArrival_routed _ _ _ _ h

theorem updateTrainsFold_routed (l : List Train) :
    ∀ (acc : EngineState × List Train × ℚ),
    (∀ t ∈ acc.2.1, routedTrain t) → (∀ t ∈ l, routedTrain t) →
    ∀ t ∈ (l.foldl (fun acc t =>
        let r := tickTrain acc.1 t
        (r.2.1, acc.2.1 ++ [r.1], acc.2.2 + r.2.2)) acc).2.1, routedTrain t := by
  induction l with
  | nil => intro acc hacc _ t ht; exact hacc t ht
  | cons a l ih =>
    intro acc hacc hl t ht
    rw [List.foldl_cons] at ht
    refine ih _ ?_ (fun u hu => hl u (List.mem_cons_of_mem a hu)) t ht
    intro u hu
    rcases List.mem_append.mp hu with hu1 | hu1
    · exact hacc u hu1
    · rw [List.mem_singleton.mp hu1]
      exact tickTrain_routed acc.1 a (hl a (List.mem_cons_self a l))

theorem updateTrains_routed (s : EngineState) (h : ∀ t ∈ s.trains, routedTrain t) :
    ∀ t ∈ (updateTrains s).trains, routedTrain t := by
  unfold updateTrains
  exact updateTrainsFold_routed s.trains (s, [], 0) (fun t ht => absurd ht (List.not_mem_nil t)) h

theorem spawnRangeFold_routed (line : SimLine) :
    ∀ (idxs : List Nat) (acc : EngineState),
    (∀ t ∈ acc.trains, routedTrain t) →
    ∀ t ∈ (idxs.foldl (fun a i =>
        { a with
          trains := a.trains ++ [{
            id := a.nextTrainId,
            lineId := line.id,
            distanceAlongLine := line.length / (TRAINS_PER_LINE : ℚ) * (i : ℚ),
            speed := 0, direction := 1, state := TrainState.moving, dwellTimeRemaining := 0,
            currentStationIndex := -1, passengers := [], capacity := TRAIN_CAPACITY }],
          nextTrainId := a.nextTrainId + 1 }) acc).trains, routedTrain t
  | [], _, h => h
  | i :: l, acc, h => by
    rw [List.foldl_cons]
    refine spawnRangeFold_routed line l _ ?_
    intro t ht
    rcases List.mem_append.mp ht with ht1 | ht1
    · exact h t ht1
    · rw [List.mem_singleton.mp ht1]
      intro p hp
      cases hp

theorem spawnTrainsForLine_routed (acc : EngineState) (line : SimLine)
    (h : ∀ t ∈ acc.trains, routedTrain t) :
    ∀ t ∈ (spawnTrainsForLine acc line).trains, routedTrain t := by
  simp only [spawnTrainsForLine]
  split
  · exact h
  · exact spawnRangeFold_routed line (List.range TRAINS_PER_LINE) acc h

theorem spawnFold_routed :
    ∀ (l : List SimLine) (acc : EngineState), (∀ t ∈ acc.trains, routedTrain t) →
    ∀ t ∈ (l.foldl spawnTrainsForLine acc).trains, routedTrain t
  | [], _, h => h
  | line :: l, acc, h => by
    rw [List.foldl_cons]
    exact spawnFold_routed l _ (spawnTrainsForLine_routed acc line h)

theorem addStationToSimulation_trains (s : EngineState) (f : PointFeature) :
    (addStationToSimulation s f).trains = s.trains := rfl

theorem prepareLineWith_trains (dist : Coord → Coord → ℚ) (id : SimId)
    (acc : EngineState) (coords : List Coord) :
    (prepareLineWith dist id acc coords).trains = acc.trains := by
  simp only [prepareLineWith]
  split <;> rfl

theorem prepareLine_trains (dist : Coord → Coord → ℚ) (acc : EngineState)
    (f : LineFeature) : (prepareLine dist acc f).trains = acc.trains := by
  simp only [prepareLine]
  split
  · rfl
  · split <;> exact prepareLineWith_trains dist _ _ _

theorem updateNetwork_routed (dist : Coord → Coord → ℚ) (lines : List LineFeature)
    (stations : List PointFeature) (s : EngineState) :
    ∀ t ∈ (updateNetwork dist lines stations s).1.trains, routedTrain t := by
  unfold updateNetwork
  refine spawnFold_routed _ _ ?_
  have h1 : ∀ (l : List PointFeature) (x : EngineState),
      (l.foldl addStationToSimulation x).trains = x.trains :=
    fun l x => foldlPreserve EngineState.trains addStationToSimulation
      addStationToSimulation_trains l x
  have h2 : ∀ (x : EngineState), (prepareLines dist x).trains = x.trains :=
    fun x => foldlPreserve EngineState.trains (prepareLine dist)
      (prepareLine_trains dist) x.linesOrigin x
  intro t ht
  rw [h2, h1] at ht
  cases ht

theorem cleanupIncidents_trains (s : EngineState) :
    (cleanupIncidents s).1.trains = s.trains := rfl

/-- One tick preserves the onboard-route invariant. -/
theorem simulationTick_routed (dist : Coord → Coord → ℚ) (s : EngineState)
    (o : TickOracle) (h : ∀ t ∈ s.trains, routedTrain t) :
    ∀ t ∈ (simulationTick dist s o).1.trains, routedTrain t := by
  unfold simulationTick
  set s1 : EngineState := { s with simTime := s.simTime + TICK_SECONDS } with hs1
  set s2 : EngineState := if Int.floor (s1.lastDayRollover / 86400) < Int.floor (s1.simTime / 86400)
    then { s1 with dailyStationRidership := [], dailyLineRidership := [],
                   lastDayRollover := s1.simTime }
    else s1 with hs2
  have hs2tr : s2.trains = s.trains := by
    rw [hs2]
    split <;> rfl
  set s3 := spawnPassengers dist s2 ((Int.floor (qmod s1.simTime 86400 / 3600)).toNat)
    o.spawnDraws with hs3
  have hs3tr : s3.trains = s.trains := by
    rw [hs3, (spawnPassengers_frame _ _ _ _).2.2.1, hs2tr]
  intro t ht
  rw [cleanupIncidents_trains, (checkForIncidents_frame _ _ _).2] at ht
  have ht2 : t ∈ (updateTrains s3).trains := by
    simpa [(updateEconomics_frame _).2.2.1] using ht
  exact updateTrains_routed s3 (fun u hu => h u (hs3tr ▸ hu)) t ht2

/-- The onboard-route invariant holds in every reachable engine state. -/
theorem reachable_trains_routed (dist : Coord → Coord → ℚ) (s : EngineState)
    (h : Reachable dist s) : ∀ t ∈ s.trains, routedTrain t := by
  induction h with
  | init => intro t ht; cases ht
  | @msg s' m hr ih =>
    cases m with
    | start => exact fun t ht => ih t ht
    | pause => exact fun t ht => ih t ht
    | updateNet lines stations => exact updateNetwork_routed dist lines stations s'
    | buildInfrastructure cost => exact fun t ht => ih t ht
    | planJourney o d => exact fun t ht => ih t ht
    | getDemandGrid dd =>
      intro t ht
      refine ih t ?_
      simp only [onMessage] at ht
      split at ht
      · exact ht
      · exact ht
    | setGrid g => exact fun t ht => ih t ht
    | getDemandDetails c r => exact fun t ht => ih t ht
  | @tick s' o hr ih => exact simulationTick_routed dist s' o ih

set_option maxHeartbeats 1000000 in
/-- C10.  In every reachable engine state, every passenger aboard any train
has a non-null assigned route — boarding only admits passengers whose lazily
computed route exists and whose current leg matches the boarding train — so
the alighting branch that silently discards route-less onboard passengers
never fires. -/
theorem c10_onboard_passengers_always_routed (dist : Coord → Coord → ℚ)
    (s : EngineState) (h : Reachable dist s) :
    (s.trains.all fun t => t.passengers.all fun p => p.route.isSome) = true := by
  have hp := reachable_trains_routed dist s h
  rw [List.all_eq_true]
  intro t ht
  rw [List.all_eq_true]
  intro p hmem
  exact Option.isSome_iff_ne_none.mpr (hp t ht p hmem)

theorem c10_witness :
    Reachable dist0 net1 ∧
    (net1.trains.all fun t => t.passengers.all fun p => p.route.isSome) = true := by
  have hr : Reachable dist0 net1 :=
    Reachable.msg (InMsg.updateNet [lnF1] [stF1, stF2]) Reachable.init
  exact ⟨hr, c10_onboard_passengers_always_routed dist0 net1 hr⟩

/-! Line-table support lemmas (C2). -/

theorem insertByKey_length {α : Type} (key : α → ℚ) (x : α) :
    ∀ l : List α, (insertByKey key x l).length = l.length + 1
  | [] => rfl
  | y :: ys => by
    simp only [insertByKey]
    split
    · rfl
    · simp only [List.length_cons, insertByKey_length key x ys]

theorem sortByKey_length {α : Type} (key : α → ℚ) :
    ∀ l : List α, (sortByKey key l).length = l.length
  | [] => rfl
  | x :: xs => by
    simp only [sortByKey]
    rw [insertByKey_length, sortByKey_length key xs, List.length_cons]

theorem upsertLine_mem (ls : List SimLine) (i : SimId) (v : SimLine) (l : SimLine)
    (h : l ∈ upsertLine ls i v) : l ∈ ls ∨ l = v := by
  unfold upsertLine at h
  split at h
  · rcases List.mem_map.mp h with ⟨x, hx, hxe⟩
    by_cases hid : x.id = i
    · right
      rw [← hxe, if_pos hid]
    · left
      rw [← hxe, if_neg hid]
      exact hx
  · rcases List.mem_append.mp h with h1 | h1
    · exact Or.inl h1
    · exact Or.inr (List.mem_singleton.mp h1)

theorem prepareLineWith_ge2 (dist : Coord → Coord → ℚ) (id : SimId) (acc : EngineState)
    (coords : List Coord)
    (h : ∀ l ∈ acc.simLines, 2 ≤ l.stationDistances.length) :
    ∀ l ∈ (prepareLineWith dist id acc coords).simLines, 2 ≤ l.stationDistances.length := by
  simp only [prepareLineWith]
  split
  · exact h
  · rename_i hge
    intro l hl
    rcases upsertLine_mem _ _ _ l hl with h1 | h1
    · exact h l h1
    · rw [h1]
      show 2 ≤ (sortByKey StationDist.distance _).length
      rw [sortByKey_length]
      omega

theorem prepareLine_ge2 (dist : Coord → Coord → ℚ) (acc : EngineState) (f : LineFeature)
    (h : ∀ l ∈ acc.simLines, 2 ≤ l.stationDistances.length) :
    ∀ l ∈ (prepareLine dist acc f).simLines, 2 ≤ l.stationDistances.length := by
  simp only [prepareLine]
  split
  · exact h
  · split <;> exact prepareLineWith_ge2 dist _ _ _ h

theorem prepareLinesFold_ge2 (dist : Coord → Coord → ℚ) :
    ∀ (fs : List LineFeature) (acc : EngineState),
    (∀ l ∈ acc.simLines, 2 ≤ l.stationDistances.length) →
    ∀ l ∈ (fs.foldl (prepareLine dist) acc).simLines, 2 ≤ l.stationDistances.length
  | [], _, h => h
  | f :: fs, acc, h => by
    rw [List.foldl_cons]
    exact prepareLinesFold_ge2 dist fs _ (prepareLine_ge2 dist acc f h)

theorem spawnRangeFold_simLines (line : SimLine) :
    ∀ (idxs : List Nat) (acc : EngineState),
    (idxs.foldl (fun a i =>
        { a with
          trains := a.trains ++ [{
            id := a.nextTrainId,
            lineId := line.id,
            distanceAlongLine := line.length / (TRAINS_PER_LINE : ℚ) * (i : ℚ),
            speed := 0, direction := 1, state := TrainState.moving, dwellTimeRemaining := 0,
            currentStationIndex := -1, passengers := [], capacity := TRAIN_CAPACITY }],
          nextTrainId := a.nextTrainId + 1 }) acc).simLines = acc.simLines
  | [], _ => rfl
  | i :: l, acc => by
    rw [List.foldl_cons, spawnRangeFold_simLines line l]

theorem spawnTrainsForLine_simLines (a : EngineState) (line : SimLine) :
    (spawnTrainsForLine a line).simLines = a.simLines := by
  simp only [spawnTrainsForLine]
  split
  · rfl
  · exact spawnRangeFold_simLines line (List.range TRAINS_PER_LINE) a

theorem spawnFold_simLines : ∀ (l : List SimLine) (acc : EngineState),
    (l.foldl spawnTrainsForLine acc).simLines = acc.simLines
  | [], _ => rfl
  | line :: l, acc => by
    rw [List.foldl_cons, spawnFold_simLines l _, spawnTrainsForLine_simLines]

theorem addStationToSimulation_simLines (s : EngineState) (f : PointFeature) :
    (addStationToSimulation s f).simLines = s.simLines := rfl

theorem updateNetwork_lines_ge2 (dist : Coord → Coord → ℚ) (lines : List LineFeature)
    (stations : List PointFeature) (s : EngineState) :
    ∀ l ∈ (updateNetwork dist lines stations s).1.simLines, 2 ≤ l.stationDistances.length := by
  unfold updateNetwork
  intro l hl
  rw [spawnFold_simLines] at hl
  refine prepareLinesFold_ge2 dist _ _ ?_ l hl
  intro l' hl'
  rw [foldlPreserve EngineState.simLines addStationToSimulation
    addStationToSimulation_simLines _ _] at hl'
  cases hl'

theorem spawnRangeFold_refs (line : SimLine) :
    ∀ (idxs : List Nat) (acc : EngineState) (t : Train),
    t ∈ (idxs.foldl (fun a i =>
        { a with
          trains := a.trains ++ [{
            id := a.nextTrainId,
            lineId := line.id,
            distanceAlongLine := line.length / (TRAINS_PER_LINE : ℚ) * (i : ℚ),
            speed := 0, direction := 1, state := TrainState.moving, dwellTimeRemaining := 0,
            currentStationIndex := -1, passengers := [], capacity := TRAIN_CAPACITY }],
          nextTrainId := a.nextTrainId + 1 }) acc).trains →
    t ∈ acc.trains ∨ t.lineId = line.id
  | [], _, _, h => Or.inl h
  | i :: l, acc, t, h => by
    rw [List.foldl_cons] at h
    rcases spawnRangeFold_refs line l _ t h with h1 | h1
    · rcases List.mem_append.mp h1 with h2 | h2
      · exact Or.inl h2
      · right
        rw [List.mem_singleton.mp h2]
    · exact Or.inr h1

theorem spawnTrainsForLine_refs (acc : EngineState) (line : SimLine) (t : Train)
    (h : t ∈ (spawnTrainsForLine acc line).trains) :
    t ∈ acc.trains ∨ t.lineId = line.id := by
  rw [show spawnTrainsForLine acc line = if line.stationDistances.length < 2 then acc
      else (List.range TRAINS_PER_LINE).foldl (fun a i =>
        { a with
          trains := a.trains ++ [{
            id := a.nextTrainId,
            lineId := line.id,
            distanceAlongLine := line.length / (TRAINS_PER_LINE : ℚ) * (i : ℚ),
            speed := 0, direction := 1, state := TrainState.moving, dwellTimeRemaining := 0,
            currentStationIndex := -1, passengers := [], capacity := TRAIN_CAPACITY }],
          nextTrainId := a.nextTrainId + 1 }) acc from rfl] at h
  split at h
  · exact Or.inl h
  · exact spawnRangeFold_refs line (List.range TRAINS_PER_LINE) acc t h

theorem spawnFold_refs (L0 : List SimLine) :
    ∀ (l : List SimLine) (acc : EngineState),
    (∀ line ∈ l, line ∈ L0) →
    (∀ t ∈ acc.trains, ∃ li ∈ L0, t.lineId = li.id) →
    ∀ t ∈ (l.foldl spawnTrainsForLine acc).trains, ∃ li ∈ L0, t.lineId = li.id
  | [], _, _, hacc, t, ht => hacc t ht
  | line :: l, acc, hsub, hacc, t, ht => by
    rw [List.foldl_cons] at ht
    refine spawnFold_refs L0 l _ (fun u hu => hsub u (List.mem_cons_of_mem line hu)) ?_ t ht
    intro u hu
    rcases spawnTrainsForLine_refs acc line u hu with h1 | h1
    · exact hacc u h1
    · exact ⟨line, hsub line (List.mem_cons_self line l), h1⟩

theorem updateNetwork_train_refs (dist : Coord → Coord → ℚ) (lines : List LineFeature)
    (stations : List PointFeature) (s : EngineState) :
    ∀ t ∈ (updateNetwork dist lines stations s).1.trains,
      ∃ li ∈ (updateNetwork dist lines stations s).1.simLines, t.lineId = li.id := by
  unfold updateNetwork
  intro t ht
  rw [spawnFold_simLines]
  refine spawnFold_refs _ _ _ (fun line hl => hl) ?_ t ht
  intro u hu
  have hpre : ∀ x : EngineState, (prepareLines dist x).trains = x.trains :=
    fun x => foldlPreserve EngineState.trains (prepareLine dist)
      (prepareLine_trains dist) x.linesOrigin x
  rw [hpre, foldlPreserve EngineState.trains addStationToSimulation
      (fun b c => rfl) _ _] at hu
  cases hu

theorem expandInner_refs (L : List SimLine) (line : SimLine) (lid : SimId)
    (station : SimStation) (cur : BfsEntry) (here : StationDist)
    (hlid : ∃ li ∈ L, lid = li.id)
    (hcur : ∀ leg ∈ cur.path, ∃ li ∈ L, leg.lineId = li.id) :
    ∀ (is : List Nat) (acc : List BfsEntry × List SimId),
    (∀ e ∈ acc.1, ∀ leg ∈ e.path, ∃ li ∈ L, leg.lineId = li.id) →
    ∀ e ∈ (is.foldl (fun acc3 i =>
        match line.stationDistances.get? i with
        | none => acc3
        | some neighbor =>
          if acc3.2.any (fun v => decide (v = neighbor.id)) then acc3
          else
            (acc3.1 ++ [{
                stationId := neighbor.id,
                path := cur.path ++ [{
                    lineId := lid,
                    fromStationId := station.id,
                    toStationId := neighbor.id,
                    rideTime := (|neighbor.distance - here.distance| / 500) * 60,
                    coords := extractLineSegment line station.id neighbor.id }],
                wait := cur.wait + 1 }],
             acc3.2 ++ [neighbor.id])) acc).1,
    ∀ leg ∈ e.path, ∃ li ∈ L, leg.lineId = li.id
  | [], _, hacc => hacc
  | i :: l, acc, hacc => by
    rw [List.foldl_cons]
    refine expandInner_refs L line lid station cur here hlid hcur l _ ?_
    intro e he
    split at he
    · exact hacc e he
    · rename_i neighbor hn
      split at he
      · exact hacc e he
      · rcases List.mem_append.mp he with h1 | h1
        · exact hacc e h1
        · rw [List.mem_singleton.mp h1]
          intro leg hleg
          rcases List.mem_append.mp hleg with h2 | h2
          · exact hcur leg h2
          · rw [List.mem_singleton.mp h2]
            obtain ⟨li, hli, hide⟩ := hlid
            exact ⟨li, hli, hide⟩

theorem expandLine_refs (L : List SimLine) (station : SimStation) (cur : BfsEntry)
    (hcur : ∀ leg ∈ cur.path, ∃ li ∈ L, leg.lineId = li.id)
    (acc : List BfsEntry × List SimId) (lid : SimId)
    (hacc : ∀ e ∈ acc.1, ∀ leg ∈ e.path, ∃ li ∈ L, leg.lineId = li.id) :
    ∀ e ∈ (expandLine L station cur acc lid).1,
      ∀ leg ∈ e.path, ∃ li ∈ L, leg.lineId = li.id := by
  simp only [expandLine]
  split
  · exact hacc
  · rename_i line hline
    have hlid : ∃ li ∈ L, lid = li.id := by
      have hmem := List.mem_of_find?_eq_some hline
      have hp := List.find?_some hline
      simp only [decide_eq_true_eq] at hp
      exact ⟨line, hmem, hp.symm⟩
    split
    · exact hacc
    · split
      · exact hacc
      · rename_i stationIndex hidx here hhere
        simp only [List.foldl_cons, List.foldl_nil]
        exact expandInner_refs L line lid station cur here hlid hcur _ _
          (expandInner_refs L line lid station cur here hlid hcur _ acc hacc)

theorem expandFold_refs (L : List SimLine) (station : SimStation) (cur : BfsEntry)
    (hcur : ∀ leg ∈ cur.path, ∃ li ∈ L, leg.lineId = li.id) :
    ∀ (lids : List SimId) (acc : List BfsEntry × List SimId),
    (∀ e ∈ acc.1, ∀ leg ∈ e.path, ∃ li ∈ L, leg.lineId = li.id) →
    ∀ e ∈ (lids.foldl (expandLine L station cur) acc).1,
      ∀ leg ∈ e.path, ∃ li ∈ L, leg.lineId = li.id
  | [], _, hacc => hacc
  | lid :: ls, acc, hacc => by
    rw [List.foldl_cons]
    exact expandFold_refs L station cur hcur ls _
      (expandLine_refs L station cur hcur acc lid hacc)

theorem findRouteAux_refs (L : List SimLine) (S : List SimStation) (dest : SimId) :
    ∀ (fuel : Nat) (queue : List BfsEntry) (visited : List SimId),
    (∀ e ∈ queue, ∀ leg ∈ e.path, ∃ li ∈ L, leg.lineId = li.id) →
    ∀ (r : Route), findRouteAux L S dest fuel queue visited = some r →
    ∀ leg ∈ r.legs, ∃ li ∈ L, leg.lineId = li.id
  | 0, _, _, _, _, hr => by cases hr
  | _ + 1, [], _, _, _, hr => by cases hr
  | fuel + 1, cur :: rest, visited, hq, r, hr => by
    simp only [findRouteAux] at hr
    split at hr
    · cases hr
      exact hq cur (List.mem_cons_self _ _)
    · split at hr
      · exact findRouteAux_refs L S dest fuel rest visited
          (fun e he => hq e (List.mem_cons_of_mem cur he)) r hr
      · rename_i station hst
        refine findRouteAux_refs L S dest fuel _ _ ?_ r hr
        intro e he
        rcases List.mem_append.mp he with h1 | h1
        · exact hq e (List.mem_cons_of_mem cur h1)
        · exact expandFold_refs L station cur (hq cur (List.mem_cons_self cur rest))
            station.lines ([], visited) (fun x hx => absurd hx (List.not_mem_nil x)) e h1

/-- Every leg of any route `findRoute` computes references a line present in
the line table it was given. -/
theorem findRoute_refs (L : List SimLine) (S : List SimStation) (o d : SimId)
    (r : Route) (h : findRoute L S o d = some r) :
    ∀ leg ∈ r.legs, ∃ li ∈ L, leg.lineId = li.id :=
  findRouteAux_refs L S d _ _ _
    (fun e he => by
      rw [List.mem_singleton.mp he]
      intro leg hleg
      cases hleg) r h

/-- C2 (counterexample).  A line passing through a single station (fewer
than 2 matches) is not retained in the engine's Line table after
`UPDATE_NETWORK`: the table comes out empty, refuting "is still present in
the engine's Line table". -/
theorem c2_under_connected_line_dropped :
    (updateNetwork dist0 [lnF1] [stF1] initialState).1.simLines = [] := by
  norm_num [updateNetwork, resetSimulation, addStationToSimulation, prepareLines, prepareLine,
    prepareLineWith, snapScan, cumDist, segSum, segPairs, sortByKey, insertByKey, upsertStation,
    upsertLine, qUpsert, dist0, coordKey, initialState, stF1, lnF1, simIdStr, addToSet,
    List.range_succ, max_def, spawnTrainsForLine]

/-- C2 (amended).  After any `UPDATE_NETWORK`, an input line that matched
fewer than 2 stations is excluded from the engine's Line table rather than
retained: every table entry records at least 2 matched stations; no train
references a line outside the table, and no computed route uses a line
outside the table — so under-connected lines are excluded from train
spawning and routing exactly because they are not in the table at all. -/
theorem c2_line_table_excludes_under_connected (dist : Coord → Coord → ℚ)
    (lines : List LineFeature) (stations : List PointFeature) (s : EngineState) :
    (∀ l ∈ (updateNetwork dist lines stations s).1.simLines, 2 ≤ l.stationDistances.length) ∧
    (∀ t ∈ (updateNetwork dist lines stations s).1.trains,
      ∃ li ∈ (updateNetwork dist lines stations s).1.simLines, t.lineId = li.id) ∧
    (∀ (origin dest : SimId) (r : Route),
      findRoute (updateNetwork dist lines stations s).1.simLines
        (updateNetwork dist lines stations s).1.simStations origin dest = some r →
      ∀ leg ∈ r.legs,
        ∃ li ∈ (updateNetwork dist lines stations s).1.simLines, leg.lineId = li.id) :=
  ⟨updateNetwork_lines_ge2 dist lines stations s,
   updateNetwork_train_refs dist lines stations s,
   fun _ _ r h => findRoute_refs _ _ _ _ r h⟩

theorem c2_witness :
    findRoute (updateNetwork dist0 [lnF1] [stF1, stF2] initialState).1.simLines
      (updateNetwork dist0 [lnF1] [stF1, stF2] initialState).1.simStations
      (Sum.inl 1) (Sum.inl 2) = some route1 ∧
    (∃ li ∈ (updateNetwork dist0 [lnF1] [stF1, stF2] initialState).1.simLines,
      leg1.lineId = li.id) := by
  have hnet : (updateNetwork dist0 [lnF1] [stF1, stF2] initialState).1 = net1lit := net1_eval
  have heval : findRoute (updateNetwork dist0 [lnF1] [stF1, stF2] initialState).1.simLines
      (updateNetwork dist0 [lnF1] [stF1, stF2] initialState).1.simStations
      (Sum.inl 1) (Sum.inl 2) = some route1 := by
    rw [hnet]
    norm_num [findRoute, routeFuel, findRouteAux, expandLine, walkIdx, extractLineSegment,
      lookupLine, lookupStation, net1lit, route1, leg1, List.range_succ, List.find?,
      List.findIdx?]
  exact ⟨heval,
    (c2_line_table_excludes_under_connected dist0 [lnF1] [stF1, stF2] initialState).2.2
      (Sum.inl 1) (Sum.inl 2) route1 heval leg1 (List.mem_singleton.mpr rfl)⟩

end SubSim
